import Mathlib

/-!
# Character controller of `skeletal_animation.cpp`

A shallow embedding of the gameplay core of `src/skeletal_animation.cpp`:
the orbit camera callbacks (`mouse_callback`, `scroll_callback`) and the
per-frame body of the main loop (input sampling, hitbox toggle, action state
machine, gravity / jump block, planar movement, update of the `prev*` flags).

Conventions of the embedding.

* `float` and `double` values are exact rationals (`ℚ`): rounding of the
  results of operations, infinities and NaN are not modelled. The constant
  `PLAYER_GRAVITY` carries the binary32 value of its literal, because the
  elapsed time at which a fresh jump lands within its own frame depends on
  it; values meant as binary32 numbers in the statements (`binary32_0_3`,
  `binary32_0_1`) are given as exact fractions.
* The globals `player`, `state`, `actionTimeLeft`, `prev*` and the local
  `showHitbox` form the record `Game`; the global `cam` with `firstMouse`,
  `lastX`, `lastY` forms the record `CamWorld`.
* Library functions that are not part of the repository (`std::sin`,
  `std::cos`, `std::atan2`, `std::sqrt`, `glm::inversesqrt`, `glm::degrees`,
  `glm::isnan`) are the fields of a parameter `Glm`; `glm::length`,
  `glm::normalize` and `glm::cross` are written out from them.
* The clips (`Animation` objects) are a parameter `Clip → Animation`; the
  calls that reach the animator during one frame are logged in `Game.calls`,
  which a frame empties before it starts.
* The elapsed time `deltaTime` of a frame is part of its input; the camera
  global is an argument of the frame, since the callbacks may change it
  between frames.
* Window and GL setup, rendering, and the two lines that place the hitbox
  (`playerHitbox.center`, `playerHitbox.halfExtents`) are left out: no
  statement below depends on them.
-/

namespace SkeletalAnimation

/-! ## Vectors and library functions -/

/-- Two-component vector, `glm::vec2`. -/
structure Vec2 where
  x : ℚ
  y : ℚ
deriving DecidableEq

/-- Three-component vector, `glm::vec3`. -/
structure Vec3 where
  x : ℚ
  y : ℚ
  z : ℚ
deriving DecidableEq

/-- Componentwise sum of two vectors. -/
def Vec3.add (a b : Vec3) : Vec3 := ⟨a.x + b.x, a.y + b.y, a.z + b.z⟩

/-- Vector times scalar. -/
def Vec3.scale (a : Vec3) (c : ℚ) : Vec3 := ⟨a.x * c, a.y * c, a.z * c⟩

/-- Dot product. -/
def Vec3.dot (a b : Vec3) : ℚ := a.x * b.x + a.y * b.y + a.z * b.z

/-- Cross product, `glm::cross`. -/
def Vec3.cross (a b : Vec3) : Vec3 :=
  ⟨a.y * b.z - b.y * a.z, a.z * b.x - b.z * a.x, a.x * b.y - b.x * a.y⟩

/-- Library functions used by the program and defined outside the repository. -/
structure Glm where
  /-- The function `std::sqrt`. -/
  sqrt : ℚ → ℚ
  /-- The function `glm::inversesqrt`. -/
  inversesqrt : ℚ → ℚ
  /-- The function `std::sin`. -/
  sin : ℚ → ℚ
  /-- The function `std::cos`. -/
  cos : ℚ → ℚ
  /-- The function `std::atan2`. -/
  atan2 : ℚ → ℚ → ℚ
  /-- The function `glm::degrees`. -/
  degrees : ℚ → ℚ
  /-- The function `glm::isnan` on one component. -/
  isnan : ℚ → Bool

/-- Length of a planar vector: `glm::length` is `sqrt (dot v v)`. -/
def Glm.length2 (G : Glm) (v : Vec2) : ℚ := G.sqrt (v.x * v.x + v.y * v.y)

/-- Length of a vector: `glm::length` is `sqrt (dot v v)`. -/
def Glm.length (G : Glm) (v : Vec3) : ℚ := G.sqrt (v.dot v)

/-- Unit vector: `glm::normalize` is `v * inversesqrt (dot v v)`. -/
def Glm.normalize (G : Glm) (v : Vec3) : Vec3 := v.scale (G.inversesqrt (v.dot v))

/-- Test `glm::any (glm::isnan v)`. -/
def Glm.anyIsnan (G : Glm) (v : Vec3) : Bool := G.isnan v.x || G.isnan v.y || G.isnan v.z

/-! ## Settings, player and camera -/

/-- The binary32 number nearest to 0.3, the value a `float` holds for 0.3:
10066330 / 2^25 = 0.300000011920928955078125. -/
def binary32_0_3 : ℚ := 10066330 / 33554432

/-- The binary32 number nearest to 0.1, the value a `float` holds for 0.1:
13421773 / 2^27 = 0.100000001490116119384765625. -/
def binary32_0_1 : ℚ := 13421773 / 134217728

/-- Constant `PLAYER_JUMP_SPEED`. -/
def PLAYER_JUMP_SPEED : ℚ := 5.0

/-- The value of the literal `9.8f`: the binary32 number nearest to 9.8, which is
10276045 / 2^20 = 9.80000019073486328125. -/
def literal_9_8f : ℚ := 10276045 / 1048576

/-- Constant `PLAYER_GRAVITY`, the binary32 product `-9.8f * 2.0f`; doubling a binary32
number is exact, so the constant is -19.6000003814697265625. -/
def PLAYER_GRAVITY : ℚ := -literal_9_8f * 2.0

/-- The record `Player` with its default member initialisers. -/
structure Player where
  pos : Vec3 := ⟨0, 0, 0⟩
  yawDeg : ℚ := 0
  moveSpeed : ℚ := 3.4
  runSpeed : ℚ := 6.0
  rollSpeed : ℚ := 2.0
  height : ℚ := 1.0
  isGrounded : Bool := true
  yVelocity : ℚ := 0
deriving DecidableEq

/-- The record `OrbitCam` with its default member initialisers. -/
structure OrbitCam where
  yawDeg : ℚ := 0
  pitchDeg : ℚ := -5.0
  distance : ℚ := 3.0
  height : ℚ := 0.35
  lookOffset : ℚ := 0.6
  sens : ℚ := 0.1
  minPitch : ℚ := -60.0
  maxPitch : ℚ := 35.0
  minDist : ℚ := 1.6
  maxDist : ℚ := 6.0
deriving DecidableEq

/-- The camera global together with the mouse globals `firstMouse`, `lastX`, `lastY`. -/
structure CamWorld where
  cam : OrbitCam := {}
  firstMouse : Bool := true
  lastX : ℚ := 1280 / 2.0
  lastY : ℚ := 720 / 2.0
deriving DecidableEq

/-- Function `mouse_callback`. -/
def mouse_callback (xpos ypos : ℚ) (w : CamWorld) : CamWorld :=
  let w := if w.firstMouse then { w with lastX := xpos, lastY := ypos, firstMouse := false } else w
  let xoffset := xpos - w.lastX
  let yoffset := w.lastY - ypos
  let w := { w with lastX := xpos, lastY := ypos }
  let cam := w.cam
  let cam := { cam with yawDeg := cam.yawDeg + xoffset * cam.sens * -1 }
  let cam := { cam with pitchDeg := cam.pitchDeg + yoffset * cam.sens }
  let cam := if cam.pitchDeg < cam.minPitch then { cam with pitchDeg := cam.minPitch } else cam
  let cam := if cam.pitchDeg > cam.maxPitch then { cam with pitchDeg := cam.maxPitch } else cam
  { w with cam := cam }

/-- Function `scroll_callback`; the unused horizontal offset is kept as an argument. -/
def scroll_callback (_xoffset yoffset : ℚ) (w : CamWorld) : CamWorld :=
  let cam := w.cam
  let cam := { cam with distance := cam.distance - yoffset * 0.5 }
  let cam := if cam.distance < cam.minDist then { cam with distance := cam.minDist } else cam
  let cam := if cam.distance > cam.maxDist then { cam with distance := cam.maxDist } else cam
  { w with cam := cam }

/-- One event delivered to the camera callbacks. -/
inductive CamEvent where
  | mouseMove (xpos ypos : ℚ)
  | scroll (xoffset yoffset : ℚ)
deriving DecidableEq

/-- Dispatch of one event to its callback. -/
def CamEvent.apply (w : CamWorld) : CamEvent → CamWorld
  | .mouseMove x y => mouse_callback x y w
  | .scroll xo yo => scroll_callback xo yo w

/-- The camera world after a sequence of events, oldest first. -/
def runEvents (w : CamWorld) (es : List CamEvent) : CamWorld := es.foldl CamEvent.apply w

/-- The camera world at program start. -/
def initCam : CamWorld := {}

/-! ## Animation collaborator -/

/-- The clips held by the globals `gIdle`, `gWalk`, `gRun`, `gRoll`, `gAttack`, `gJump`. -/
inductive Clip where
  | gIdle | gWalk | gRun | gRoll | gAttack | gJump
deriving DecidableEq

/-- What the program reads of an `Animation` object: `GetDuration` and `GetTicksPerSecond`. -/
structure Animation where
  duration : ℚ
  ticksPerSecond : ℚ
deriving DecidableEq

/-- A call of `PlayLoop` or of `PlayOneShot`, each of which reaches `PlayAnimation`. -/
inductive AnimCall where
  | PlayLoop (c : Clip)
  | PlayOneShot (c : Clip)
deriving DecidableEq

/-! ## Game state and input -/

/-- The enumeration `ActionState`. -/
inductive ActionState where
  | Idle | Moving | Running | Rolling | Attacking | Jumping
deriving DecidableEq

/-- The mutable globals read and written by the body of the main loop, the local
`showHitbox`, and the log of animation calls issued during the current frame. -/
structure Game where
  player : Player := {}
  state : ActionState := ActionState.Idle
  actionTimeLeft : ℚ := 0
  prevLMB : Bool := false
  prevSpace : Bool := false
  prevE : Bool := false
  prevShift : Bool := false
  showHitbox : Bool := true
  calls : List AnimCall := []
deriving DecidableEq

/-- What one frame samples from the window: the polled keys and button, and the
elapsed time `deltaTime`. -/
structure Input where
  keyW : Bool := false
  keyS : Bool := false
  keyD : Bool := false
  keyA : Bool := false
  spaceNow : Bool := false
  lmbNow : Bool := false
  eNow : Bool := false
  shiftNow : Bool := false
  keyH : Bool := false
  deltaTime : ℚ := 0
deriving DecidableEq

/-- The game state at program start. -/
def initGame : Game := {}

/-- Function `radiansf`. -/
def radiansf (d : ℚ) : ℚ := d * 0.017453292519943295

/-- Function `PlayLoop`. -/
def PlayLoop (c : Clip) (g : Game) : Game := { g with calls := g.calls ++ [AnimCall.PlayLoop c] }

/-- Function `PlayOneShot`: the out-parameter is `actionTimeLeft` at every call site. -/
def PlayOneShot (A : Clip → Animation) (c : Clip) (g : Game) : Game :=
  let g := { g with calls := g.calls ++ [AnimCall.PlayOneShot c] }
  let durTicks := (A c).duration
  let tps := (A c).ticksPerSecond
  { g with actionTimeLeft := if tps > 0 then durTicks / tps else 0.7 }

/-- Function `CameraForward`. -/
def CameraForward (G : Glm) (cam : OrbitCam) : Vec3 :=
  let yaw := radiansf cam.yawDeg
  let pit := radiansf cam.pitchDeg
  let f : Vec3 := ⟨G.cos pit * G.sin yaw, G.sin pit, G.cos pit * G.cos yaw⟩
  let f := { f with y := 0 }
  let f := if G.length f < 1e-6 then (⟨0, 0, 1⟩ : Vec3) else f
  G.normalize f

/-- Function `CameraRight`. -/
def CameraRight (G : Glm) (cam : OrbitCam) : Vec3 :=
  let f := CameraForward G cam
  G.normalize (f.cross ⟨0, 1, 0⟩)

/-- The vector `moveInput` built from the W, S, D, A keys. -/
def moveInput (i : Input) : Vec2 :=
  let m : Vec2 := ⟨0, 0⟩
  let m := if i.keyW then { m with y := m.y + 1 } else m
  let m := if i.keyS then { m with y := m.y - 1 } else m
  let m := if i.keyD then { m with x := m.x + 1 } else m
  let m := if i.keyA then { m with x := m.x - 1 } else m
  m

/-- The test `glm::length(moveInput) > 0.0f` of the state machine and gravity block. -/
def isMoving (G : Glm) (i : Input) : Bool := decide (G.length2 (moveInput i) > 0)

/-- The hitbox toggle of the main loop, with its overwrite of `prevLMB`. -/
def hitboxToggle (i : Input) (g : Game) : Game :=
  let g := if i.keyH && !g.prevLMB then { g with showHitbox := !g.showHitbox } else g
  { g with prevLMB := i.keyH }

/-- The block that the program repeats where a one-shot ends and where a jump lands:
Running when moving with shift, Moving when moving, Idle otherwise, each with its loop. -/
def resumeLocomotion (G : Glm) (i : Input) (g : Game) : Game :=
  if isMoving G i then
    if i.shiftNow then PlayLoop Clip.gRun { g with state := ActionState.Running }
    else PlayLoop Clip.gWalk { g with state := ActionState.Moving }
  else PlayLoop Clip.gIdle { g with state := ActionState.Idle }

/-- The edge test of the jump key, `eNow && !prevE`. -/
def jumpEdge (i : Input) (g : Game) : Bool := i.eNow && !g.prevE

/-- The edge test of the roll key, `spaceNow && !prevSpace`. -/
def rollEdge (i : Input) (g : Game) : Bool := i.spaceNow && !g.prevSpace

/-- The edge test of the attack button, `lmbNow && !prevLMB`, on the state it is given. -/
def attackEdge (i : Input) (g : Game) : Bool := i.lmbNow && !g.prevLMB

/-- The block `STATE MACHINE` of the main loop. -/
def stateMachine (G : Glm) (A : Clip → Animation) (i : Input) (g : Game) : Game :=
  if g.state = ActionState.Rolling ∨ g.state = ActionState.Attacking then
    let g := { g with actionTimeLeft := g.actionTimeLeft - i.deltaTime }
    if g.actionTimeLeft ≤ 0 then resumeLocomotion G i g else g
  else if g.state = ActionState.Jumping then
    if g.player.isGrounded then resumeLocomotion G i g else g
  else
    if jumpEdge i g && g.player.isGrounded then
      let g := PlayOneShot A Clip.gJump { g with state := ActionState.Jumping }
      { g with player := { g.player with yVelocity := PLAYER_JUMP_SPEED, isGrounded := false } }
    else if rollEdge i g then
      PlayOneShot A Clip.gRoll { g with state := ActionState.Rolling }
    else if attackEdge i g then
      PlayOneShot A Clip.gAttack { g with state := ActionState.Attacking }
    else
      if isMoving G i then
        if i.shiftNow then
          if g.state ≠ ActionState.Running then
            PlayLoop Clip.gRun { g with state := ActionState.Running }
          else g
        else
          if g.state ≠ ActionState.Moving then
            PlayLoop Clip.gWalk { g with state := ActionState.Moving }
          else g
      else
        if g.state ≠ ActionState.Idle then
          PlayLoop Clip.gIdle { g with state := ActionState.Idle }
        else g

/-- The block `GRAVITY / JUMP` of the main loop. -/
def gravity (G : Glm) (i : Input) (g : Game) : Game :=
  if !g.player.isGrounded then
    let g := { g with player :=
      { g.player with yVelocity := g.player.yVelocity + PLAYER_GRAVITY * i.deltaTime } }
    let g := { g with player :=
      { g.player with pos :=
        { g.player.pos with y := g.player.pos.y + g.player.yVelocity * i.deltaTime } } }
    if g.player.pos.y ≤ 0 then
      let g := { g with player :=
        { g.player with pos := { g.player.pos with y := 0 }, yVelocity := 0, isGrounded := true } }
      if g.state = ActionState.Jumping then resumeLocomotion G i g else g
    else g
  else g

/-- The vector `wishDir` of the block `MOVEMENT`. -/
def wishDir (G : Glm) (cam : OrbitCam) (i : Input) : Vec3 :=
  let camF := CameraForward G cam
  let camR := CameraRight G cam
  let w : Vec3 := ⟨0, 0, 0⟩
  if G.length2 (moveInput i) > 1e-6 then
    let w := G.normalize ((camF.scale (moveInput i).y).add (camR.scale (moveInput i).x))
    if G.anyIsnan w then (⟨0, 0, 0⟩ : Vec3) else w
  else w

/-- The speed `spd` chosen by the block `MOVEMENT` in the states other than Rolling and
Attacking. -/
def moveSpd (g : Game) : ℚ :=
  let spd : ℚ :=
    if g.state = ActionState.Moving then g.player.moveSpeed
    else if g.state = ActionState.Running then g.player.runSpeed
    else 0
  if g.state = ActionState.Jumping then spd * 0.6 else spd

/-- The block `MOVEMENT` of the main loop. -/
def movement (G : Glm) (cam : OrbitCam) (i : Input) (g : Game) : Game :=
  let w := wishDir G cam i
  if g.state = ActionState.Moving ∨ g.state = ActionState.Idle ∨
      g.state = ActionState.Jumping ∨ g.state = ActionState.Running then
    let g := { g with player :=
      { g.player with pos := g.player.pos.add ((w.scale (moveSpd g)).scale i.deltaTime) } }
    if G.length w > 0 then
      { g with player := { g.player with yawDeg := G.degrees (G.atan2 w.x w.z) } }
    else g
  else if g.state = ActionState.Rolling then
    let forwardChar :=
      G.normalize ⟨G.sin (radiansf g.player.yawDeg), 0, G.cos (radiansf g.player.yawDeg)⟩
    { g with player :=
      { g.player with pos := g.player.pos.add ((forwardChar.scale g.player.rollSpeed).scale i.deltaTime) } }
  else g

/-- The update of the `prev*` flags at the end of the frame. -/
def updatePrev (i : Input) (g : Game) : Game :=
  { g with prevSpace := i.spaceNow, prevLMB := i.lmbNow, prevE := i.eNow, prevShift := i.shiftNow }

/-- The game state when the state machine of a frame has run: the call log is emptied,
the hitbox toggle runs, then the state machine. -/
def afterStateMachine (G : Glm) (A : Clip → Animation) (i : Input) (g : Game) : Game :=
  stateMachine G A i (hitboxToggle i { g with calls := [] })

/-- One frame of the main loop up to the update of the `prev*` flags: hitbox toggle, state
machine, gravity, movement, `prev*` update. The camera global is read, not written. -/
def tick (G : Glm) (A : Clip → Animation) (cam : OrbitCam) (i : Input) (g : Game) : Game :=
  updatePrev i (movement G cam i (gravity G i (afterStateMachine G A i g)))

/-- The game state after the frames of a list of camera and input samples, oldest first. -/
def runTicks (G : Glm) (A : Clip → Animation) (g : Game) (fs : List (OrbitCam × Input)) : Game :=
  fs.foldl (fun g f => tick G A f.1 f.2 g) g

/-- The game state after the first `k` frames of an unbounded stream of camera and input
samples. -/
def runFrames (G : Glm) (A : Clip → Animation) (fs : ℕ → OrbitCam × Input) (g : Game) :
    ℕ → Game
  | 0 => g
  | k + 1 => tick G A (fs k).1 (fs k).2 (runFrames G A fs g k)

/-! ## Sample parameters for the concrete evaluations -/

/-- Sample library functions: exact at the arguments the examples use (square roots of 0
and 1, sine and cosine of 0) and crude rational stand-ins elsewhere. -/
def sampleGlm : Glm where
  sqrt := fun q => if q = 0 then 0 else if q = 1 then 1 else (q + 1) / 2
  inversesqrt := fun q => if q = 1 then 1 else 2 / (q + 1)
  sin := fun a => a
  cos := fun a => 1 - a * a / 2
  atan2 := fun y x => if x = 0 then 0 else y / x
  degrees := fun r => r * 57.29577951308232
  isnan := fun _ => false

/-- Sample clips: every clip lasts 30 ticks at 30 ticks per second, one second. -/
def sampleClips : Clip → Animation := fun _ => ⟨30, 30⟩

/-- Sample camera with yaw and pitch zero, so that the camera looks along +z. -/
def levelCam : OrbitCam := { pitchDeg := 0 }

/-- Sample input: the left mouse button is down, nothing else, one second elapses. -/
def heldAttack : Input := { lmbNow := true, deltaTime := 1 }

/-- Sample input: the H key is down, nothing else, a sixtieth of a second elapses. -/
def heldH : Input := { keyH := true, deltaTime := 1 / 60 }

/-- Sample input: the left mouse button is down and H is not, a sixtieth of a second. -/
def lmbOnly : Input := { lmbNow := true, deltaTime := 1 / 60 }

/-- Sample input: H and the left mouse button are both down, a sixtieth of a second. -/
def lmbAndH : Input := { lmbNow := true, keyH := true, deltaTime := 1 / 60 }

/-- Sample input: W and the left mouse button are down, H and every other key are up, one
second elapses. -/
def walkAttack : Input := { keyW := true, lmbNow := true, deltaTime := 1 }

/-- Sample input: W is down, nothing else, a tenth of a second elapses. -/
def walkForward : Input := { keyW := true, deltaTime := 1 / 10 }

/-- Sample state: the initial state already in Moving. -/
def walkingGame : Game := { state := ActionState.Moving }

/-- Sample state: Rolling with the binary32 number nearest to 0.3 on the one-shot timer. -/
def rollingGame : Game := { state := ActionState.Rolling, actionTimeLeft := binary32_0_3 }

/-- Sample input: no key is down, and the elapsed time is the binary32 number nearest
to 0.1. -/
def idleTenth : Input := { deltaTime := binary32_0_1 }

/-- Sample input: E is down, nothing else, an eighth of a second elapses (1/8 is a binary32
number). -/
def jumpEighth : Input := { eNow := true, deltaTime := 1 / 8 }

/-- Sample input: E is down, nothing else, and the elapsed time is the binary32 number
2139951 / 2^23, just below 25/98. -/
def jumpAtThreshold : Input := { eNow := true, deltaTime := 2139951 / 8388608 }

/-- Sample input: E is down, nothing else, a tenth of a second elapses. -/
def jumpTenth : Input := { eNow := true, deltaTime := 1 / 10 }

/-- Sample state: airborne at height 2 with no vertical velocity, in Jumping. -/
def dropGame : Game :=
  { state := ActionState.Jumping, player := { pos := ⟨0, 2, 0⟩, isGrounded := false } }

/-- Sample stream: every frame has no key down and lasts a quarter of a second. -/
def quarterFrames : ℕ → OrbitCam × Input := fun _ => (levelCam, { deltaTime := 1 / 4 })

/-! ## Predicates used by the statements -/

/-- The camera limits are the configured ones and pitch and distance lie within them. -/
def CamInRange (w : CamWorld) : Prop :=
  w.cam.minPitch = -60 ∧ w.cam.maxPitch = 35 ∧ w.cam.minDist = 1.6 ∧ w.cam.maxDist = 6 ∧
  w.cam.minPitch ≤ w.cam.pitchDeg ∧ w.cam.pitchDeg ≤ w.cam.maxPitch ∧
  w.cam.minDist ≤ w.cam.distance ∧ w.cam.distance ≤ w.cam.maxDist

/-- The relation between the grounded flag, the height and the vertical velocity that holds
between frames: grounded means y = 0 and yVelocity = 0, airborne means y > 0. -/
def GroundInv (g : Game) : Prop :=
  (g.player.isGrounded = true → g.player.pos.y = 0 ∧ g.player.yVelocity = 0) ∧
  (g.player.isGrounded = false → 0 < g.player.pos.y)

/-- What holds of the camera world during a session: pitch and distance are in range, the
sensitivity is the configured 0.1, and as long as no mouse-move event has arrived
(`firstMouse` still set) yaw and pitch have their initial values 0 and -5. -/
def CamSession (w : CamWorld) : Prop :=
  CamInRange w ∧ w.cam.sens = 0.1 ∧
  (w.firstMouse = true → w.cam.yawDeg = 0 ∧ w.cam.pitchDeg = -5)

/-- The action state is Jumping exactly when the player is not grounded. -/
def JumpInv (g : Game) : Prop :=
  g.state = ActionState.Jumping ↔ g.player.isGrounded = false

/-- The path condition of the landing branch in the Jumping case of the state machine
(`state == ActionState::Jumping` and then `player.isGrounded`), on the state the state
machine of a frame is given. -/
def landingBranch (i : Input) (g : Game) : Bool :=
  decide ((hitboxToggle i { g with calls := [] }).state = ActionState.Jumping) &&
    (hitboxToggle i { g with calls := [] }).player.isGrounded

/-! ## Orbit camera -/

theorem camInRange_init : CamInRange initCam := by
  unfold CamInRange initCam
  norm_num

theorem camInRange_mouse (x y : ℚ) (w : CamWorld) (h : CamInRange w) :
    CamInRange (mouse_callback x y w) := by
  obtain ⟨h1, h2, h3, h4, -, -, h7, h8⟩ := h
  unfold CamInRange mouse_callback
  simp only
  split_ifs <;> simp_all <;> norm_num

theorem camInRange_scroll (xo yo : ℚ) (w : CamWorld) (h : CamInRange w) :
    CamInRange (scroll_callback xo yo w) := by
  obtain ⟨h1, h2, h3, h4, h5, h6, -, -⟩ := h
  unfold CamInRange scroll_callback
  simp only
  split_ifs <;> simp_all <;> norm_num

theorem camInRange_runEvents (es : List CamEvent) :
    ∀ w : CamWorld, CamInRange w → CamInRange (runEvents w es) := by
  induction es with
  | nil => intro w h; exact h
  | cons e es ih =>
    intro w h
    have hstep : CamInRange (CamEvent.apply w e) := by
      cases e with
      | mouseMove x y => exact camInRange_mouse x y w h
      | scroll xo yo => exact camInRange_scroll xo yo w h
    exact ih _ hstep

/-- C1: for every sequence of mouse-move and scroll events applied to the initial camera
and every number `k` of events processed so far, the limits are still the configured ones
(minPitch -60, maxPitch 35, minDist 1.6, maxDist 6), pitch lies in [minPitch, maxPitch] and
distance lies in [minDist, maxDist]. -/
theorem camera_pitch_distance_clamped (es : List CamEvent) (k : ℕ) :
    (runEvents initCam (es.take k)).cam.minPitch = -60 ∧
    (runEvents initCam (es.take k)).cam.maxPitch = 35 ∧
    (runEvents initCam (es.take k)).cam.minDist = 1.6 ∧
    (runEvents initCam (es.take k)).cam.maxDist = 6 ∧
    (runEvents initCam (es.take k)).cam.minPitch ≤ (runEvents initCam (es.take k)).cam.pitchDeg ∧
    (runEvents initCam (es.take k)).cam.pitchDeg ≤ (runEvents initCam (es.take k)).cam.maxPitch ∧
    (runEvents initCam (es.take k)).cam.minDist ≤ (runEvents initCam (es.take k)).cam.distance ∧
    (runEvents initCam (es.take k)).cam.distance ≤ (runEvents initCam (es.take k)).cam.maxDist :=
  camInRange_runEvents (es.take k) initCam camInRange_init

/-! ## Phases of a frame: what each leaves alone -/

theorem updatePrev_player (i : Input) (g : Game) : (updatePrev i g).player = g.player := rfl

theorem updatePrev_state (i : Input) (g : Game) : (updatePrev i g).state = g.state := rfl

theorem updatePrev_calls (i : Input) (g : Game) : (updatePrev i g).calls = g.calls := rfl

theorem updatePrev_timer (i : Input) (g : Game) :
    (updatePrev i g).actionTimeLeft = g.actionTimeLeft := rfl

theorem movement_state (G : Glm) (cam : OrbitCam) (i : Input) (g : Game) :
    (movement G cam i g).state = g.state := by
  unfold movement
  simp only
  split_ifs <;> rfl

theorem movement_calls (G : Glm) (cam : OrbitCam) (i : Input) (g : Game) :
    (movement G cam i g).calls = g.calls := by
  unfold movement
  simp only
  split_ifs <;> rfl

theorem movement_timer (G : Glm) (cam : OrbitCam) (i : Input) (g : Game) :
    (movement G cam i g).actionTimeLeft = g.actionTimeLeft := by
  unfold movement
  simp only
  split_ifs <;> rfl

theorem movement_yVelocity (G : Glm) (cam : OrbitCam) (i : Input) (g : Game) :
    (movement G cam i g).player.yVelocity = g.player.yVelocity := by
  unfold movement
  simp only
  split_ifs <;> rfl

theorem movement_isGrounded (G : Glm) (cam : OrbitCam) (i : Input) (g : Game) :
    (movement G cam i g).player.isGrounded = g.player.isGrounded := by
  unfold movement
  simp only
  split_ifs <;> rfl

theorem gravity_timer (G : Glm) (i : Input) (g : Game) :
    (gravity G i g).actionTimeLeft = g.actionTimeLeft := by
  unfold gravity resumeLocomotion PlayLoop
  simp only
  split_ifs <;> rfl

theorem gravity_state_of_ne_jumping (G : Glm) (i : Input) (g : Game)
    (h : g.state ≠ ActionState.Jumping) :
    (gravity G i g).state = g.state ∧ (gravity G i g).calls = g.calls := by
  unfold gravity
  simp only
  split_ifs <;> simp_all

theorem hitboxToggle_state (i : Input) (g : Game) : (hitboxToggle i g).state = g.state := by
  unfold hitboxToggle
  simp only
  split_ifs <;> rfl

theorem hitboxToggle_player (i : Input) (g : Game) : (hitboxToggle i g).player = g.player := by
  unfold hitboxToggle
  simp only
  split_ifs <;> rfl

theorem hitboxToggle_timer (i : Input) (g : Game) :
    (hitboxToggle i g).actionTimeLeft = g.actionTimeLeft := by
  unfold hitboxToggle
  simp only
  split_ifs <;> rfl

theorem hitboxToggle_calls (i : Input) (g : Game) : (hitboxToggle i g).calls = g.calls := by
  unfold hitboxToggle
  simp only
  split_ifs <;> rfl

theorem hitboxToggle_prevE (i : Input) (g : Game) : (hitboxToggle i g).prevE = g.prevE := by
  unfold hitboxToggle
  simp only
  split_ifs <;> rfl

theorem hitboxToggle_prevSpace (i : Input) (g : Game) :
    (hitboxToggle i g).prevSpace = g.prevSpace := by
  unfold hitboxToggle
  simp only
  split_ifs <;> rfl

theorem hitboxToggle_prevLMB (i : Input) (g : Game) : (hitboxToggle i g).prevLMB = i.keyH := rfl

theorem stateMachine_jump (G : Glm) (A : Clip → Animation) (i : Input) (g : Game)
    (hs : g.state = ActionState.Idle ∨ g.state = ActionState.Moving ∨
      g.state = ActionState.Running)
    (hj : jumpEdge i g = true) (hg : g.player.isGrounded = true) :
    stateMachine G A i g =
      { PlayOneShot A Clip.gJump { g with state := ActionState.Jumping } with
        player := { g.player with yVelocity := PLAYER_JUMP_SPEED, isGrounded := false } } := by
  unfold stateMachine
  rcases hs with hs | hs | hs <;> simp [hs, hj, hg, PlayOneShot]

theorem stateMachine_roll (G : Glm) (A : Clip → Animation) (i : Input) (g : Game)
    (hs : g.state = ActionState.Idle ∨ g.state = ActionState.Moving ∨
      g.state = ActionState.Running)
    (hj : (jumpEdge i g && g.player.isGrounded) = false) (hr : rollEdge i g = true) :
    stateMachine G A i g = PlayOneShot A Clip.gRoll { g with state := ActionState.Rolling } := by
  unfold stateMachine
  rcases hs with hs | hs | hs <;> simp [hs, hj, hr]

theorem stateMachine_attack (G : Glm) (A : Clip → Animation) (i : Input) (g : Game)
    (hs : g.state = ActionState.Idle ∨ g.state = ActionState.Moving ∨
      g.state = ActionState.Running)
    (hj : (jumpEdge i g && g.player.isGrounded) = false) (hr : rollEdge i g = false)
    (ha : attackEdge i g = true) :
    stateMachine G A i g =
      PlayOneShot A Clip.gAttack { g with state := ActionState.Attacking } := by
  unfold stateMachine
  rcases hs with hs | hs | hs <;> simp [hs, hj, hr, ha]

/-- C2: in a frame that starts in Idle, Moving or Running with the jump edge and the roll
edge firing and the attack button pressed, the state machine takes the jump transition when
the player is grounded (state Jumping, the jump one-shot the only call, yVelocity the jump
impulse, grounded cleared) and enters Rolling, with the roll one-shot the only call, when
the player is not grounded. -/
theorem edge_priority_jump_roll_attack (G : Glm) (A : Clip → Animation) (i : Input) (g : Game)
    (hs : g.state = ActionState.Idle ∨ g.state = ActionState.Moving ∨
      g.state = ActionState.Running)
    (hj : i.eNow = true ∧ g.prevE = false)
    (hr : i.spaceNow = true ∧ g.prevSpace = false)
    (_ha : i.lmbNow = true ∧ g.prevLMB = false) :
    (g.player.isGrounded = true →
      (afterStateMachine G A i g).state = ActionState.Jumping ∧
      (afterStateMachine G A i g).calls = [AnimCall.PlayOneShot Clip.gJump] ∧
      (afterStateMachine G A i g).player.yVelocity = PLAYER_JUMP_SPEED ∧
      (afterStateMachine G A i g).player.isGrounded = false) ∧
    (g.player.isGrounded = false →
      (afterStateMachine G A i g).state = ActionState.Rolling ∧
      (afterStateMachine G A i g).calls = [AnimCall.PlayOneShot Clip.gRoll] ∧
      (afterStateMachine G A i g).player.yVelocity = g.player.yVelocity ∧
      (afterStateMachine G A i g).player.isGrounded = false) := by
  have hs2 : (hitboxToggle i { g with calls := [] }).state = ActionState.Idle ∨
      (hitboxToggle i { g with calls := [] }).state = ActionState.Moving ∨
      (hitboxToggle i { g with calls := [] }).state = ActionState.Running := by
    rw [hitboxToggle_state]; exact hs
  have hj2 : jumpEdge i (hitboxToggle i { g with calls := [] }) = true := by
    simp [jumpEdge, hitboxToggle_prevE, hj.1, hj.2]
  have hr2 : rollEdge i (hitboxToggle i { g with calls := [] }) = true := by
    simp [rollEdge, hitboxToggle_prevSpace, hr.1, hr.2]
  constructor
  · intro hg
    have hg2 : (hitboxToggle i { g with calls := [] }).player.isGrounded = true := by
      rw [hitboxToggle_player]; exact hg
    unfold afterStateMachine
    rw [stateMachine_jump G A i _ hs2 hj2 hg2]
    simp [PlayOneShot, hitboxToggle_calls]
  · intro hg
    have hg2 : (jumpEdge i (hitboxToggle i { g with calls := [] }) &&
        (hitboxToggle i { g with calls := [] }).player.isGrounded) = false := by
      rw [hitboxToggle_player]; simp [hg]
    unfold afterStateMachine
    rw [stateMachine_roll G A i _ hs2 hg2 hr2]
    simp [PlayOneShot, hitboxToggle_calls, hitboxToggle_player, hg]
/-- Instance of C2 at the initial state with E, Space and the left button all pressed. -/
theorem edge_priority_jump_roll_attack_witness :
    (afterStateMachine sampleGlm sampleClips
        { spaceNow := true, lmbNow := true, eNow := true } initGame).state
      = ActionState.Jumping ∧
    (afterStateMachine sampleGlm sampleClips
        { spaceNow := true, lmbNow := true, eNow := true } initGame).calls
      = [AnimCall.PlayOneShot Clip.gJump] ∧
    (afterStateMachine sampleGlm sampleClips
        { spaceNow := true, lmbNow := true, eNow := true } initGame).player.yVelocity
      = PLAYER_JUMP_SPEED ∧
    (afterStateMachine sampleGlm sampleClips
        { spaceNow := true, lmbNow := true, eNow := true } initGame).player.isGrounded
      = false :=
  (edge_priority_jump_roll_attack sampleGlm sampleClips
    { spaceNow := true, lmbNow := true, eNow := true } initGame
    (Or.inl rfl) ⟨rfl, rfl⟩ ⟨rfl, rfl⟩ ⟨rfl, rfl⟩).1 rfl

/-! ## Edge detection and the shared `prevLMB` flag -/

/-- The jump key held from the previous frame starts no jump: the state machine issues no
jump one-shot and does not enter Jumping from another state. -/
theorem held_jump_key_starts_nothing (G : Glm) (A : Clip → Animation) (i : Input) (g : Game)
    (hprev : g.prevE = true) (hs : g.state ≠ ActionState.Jumping) :
    (afterStateMachine G A i g).state ≠ ActionState.Jumping ∧
    AnimCall.PlayOneShot Clip.gJump ∉ (afterStateMachine G A i g).calls := by
  have h1 := hitboxToggle_state i { g with calls := [] }
  have h2 := hitboxToggle_prevE i { g with calls := [] }
  have h3 := hitboxToggle_calls i { g with calls := [] }
  simp only at h1 h2 h3
  unfold afterStateMachine stateMachine resumeLocomotion PlayLoop PlayOneShot jumpEdge
  simp only [h1, h2, h3, hprev]
  cases hst : g.state <;> simp_all <;> split_ifs <;> simp_all [hitboxToggle_calls]

/-- The roll key held from the previous frame starts no roll: the state machine issues no
roll one-shot and does not enter Rolling from another state. -/
theorem held_roll_key_starts_nothing (G : Glm) (A : Clip → Animation) (i : Input) (g : Game)
    (hprev : g.prevSpace = true) (hs : g.state ≠ ActionState.Rolling) :
    (afterStateMachine G A i g).state ≠ ActionState.Rolling ∧
    AnimCall.PlayOneShot Clip.gRoll ∉ (afterStateMachine G A i g).calls := by
  have h1 := hitboxToggle_state i { g with calls := [] }
  have h2 := hitboxToggle_prevSpace i { g with calls := [] }
  have h3 := hitboxToggle_calls i { g with calls := [] }
  simp only at h1 h2 h3
  unfold afterStateMachine stateMachine resumeLocomotion PlayLoop PlayOneShot rollEdge
  simp only [h1, h2, h3, hprev]
  cases hst : g.state <;> simp_all <;> split_ifs <;> simp_all [hitboxToggle_calls]

/-- C3, the code at the failing input: the left mouse button is held over three frames from
the initial state while H is up. Frame 1 starts the attack on the press, frame 2 ends it
(one second elapsed) with the button still down, so `prevLMB` records a pressed button;
frame 3, button still down, starts Attacking again and issues the attack one-shot. -/
theorem held_attack_button_restarts_attack :
    (runTicks sampleGlm sampleClips initGame
        [(levelCam, heldAttack), (levelCam, heldAttack)]).state = ActionState.Idle ∧
    (runTicks sampleGlm sampleClips initGame
        [(levelCam, heldAttack), (levelCam, heldAttack)]).prevLMB = true ∧
    heldAttack.lmbNow = true ∧
    (tick sampleGlm sampleClips levelCam heldAttack
        (runTicks sampleGlm sampleClips initGame
          [(levelCam, heldAttack), (levelCam, heldAttack)])).state = ActionState.Attacking ∧
    (tick sampleGlm sampleClips levelCam heldAttack
        (runTicks sampleGlm sampleClips initGame
          [(levelCam, heldAttack), (levelCam, heldAttack)])).calls
      = [AnimCall.PlayOneShot Clip.gAttack] := by
  decide!

/-- C4, the code at the failing input: with H held over two frames from the initial state
and the left button up, the visibility flag flips on both frames (true, false, true); and
with the left button down on the frame before, a fresh press of H does not flip it. -/
theorem hitbox_toggle_reads_mouse_button :
    initGame.showHitbox = true ∧
    (tick sampleGlm sampleClips levelCam heldH initGame).showHitbox = false ∧
    (tick sampleGlm sampleClips levelCam heldH
        (tick sampleGlm sampleClips levelCam heldH initGame)).showHitbox = true ∧
    (tick sampleGlm sampleClips levelCam lmbOnly initGame).showHitbox = true ∧
    (tick sampleGlm sampleClips levelCam lmbAndH
        (tick sampleGlm sampleClips levelCam lmbOnly initGame)).showHitbox = true := by
  decide!

/-! ## Continuous recompute of Idle, Moving, Running -/

theorem tick_state_calls_of_ne_jumping (G : Glm) (A : Clip → Animation) (cam : OrbitCam)
    (i : Input) (g : Game) (h : (afterStateMachine G A i g).state ≠ ActionState.Jumping) :
    (tick G A cam i g).state = (afterStateMachine G A i g).state ∧
    (tick G A cam i g).calls = (afterStateMachine G A i g).calls := by
  unfold tick
  rw [updatePrev_state, updatePrev_calls, movement_state, movement_calls]
  exact gravity_state_of_ne_jumping G i _ h

theorem stateMachine_recompute (G : Glm) (A : Clip → Animation) (i : Input) (g : Game)
    (hs : g.state = ActionState.Idle ∨ g.state = ActionState.Moving ∨
      g.state = ActionState.Running)
    (hj : (jumpEdge i g && g.player.isGrounded) = false) (hr : rollEdge i g = false)
    (ha : attackEdge i g = false) :
    stateMachine G A i g =
      if isMoving G i then
        if i.shiftNow then
          if g.state ≠ ActionState.Running then
            PlayLoop Clip.gRun { g with state := ActionState.Running }
          else g
        else
          if g.state ≠ ActionState.Moving then
            PlayLoop Clip.gWalk { g with state := ActionState.Moving }
          else g
      else
        if g.state ≠ ActionState.Idle then
          PlayLoop Clip.gIdle { g with state := ActionState.Idle }
        else g := by
  unfold stateMachine
  rcases hs with hs | hs | hs <;> simp [hs, hj, hr, ha]

/-- What the recompute branch does when it is reached, that is when none of the three edge
tests of the state machine is true as the code evaluates them (the attack test after the
hitbox toggle has overwritten `prevLMB`): with the target Running if moving with shift,
Moving if moving without shift, Idle if not moving, the frame issues no animation call and
keeps the state when the target is the state, and otherwise enters the target with the loop
of its clip as the only call. -/
theorem locomotion_recompute_idempotent (G : Glm) (A : Clip → Animation) (cam : OrbitCam)
    (i : Input) (g : Game)
    (hs : g.state = ActionState.Idle ∨ g.state = ActionState.Moving ∨
      g.state = ActionState.Running)
    (hj : (jumpEdge i g && g.player.isGrounded) = false)
    (hr : rollEdge i g = false)
    (ha : attackEdge i (hitboxToggle i g) = false) :
    ((if isMoving G i then (if i.shiftNow then ActionState.Running else ActionState.Moving)
        else ActionState.Idle) = g.state →
      (tick G A cam i g).state = g.state ∧ (tick G A cam i g).calls = []) ∧
    ((if isMoving G i then (if i.shiftNow then ActionState.Running else ActionState.Moving)
        else ActionState.Idle) ≠ g.state →
      (tick G A cam i g).state =
        (if isMoving G i then (if i.shiftNow then ActionState.Running else ActionState.Moving)
          else ActionState.Idle) ∧
      (tick G A cam i g).calls =
        [AnimCall.PlayLoop
          (if isMoving G i then (if i.shiftNow then Clip.gRun else Clip.gWalk)
            else Clip.gIdle)]) := by
  have hst : (hitboxToggle i { g with calls := [] }).state = g.state := hitboxToggle_state i _
  have hc : (hitboxToggle i { g with calls := [] }).calls = [] := hitboxToggle_calls i _
  have hs2 : (hitboxToggle i { g with calls := [] }).state = ActionState.Idle ∨
      (hitboxToggle i { g with calls := [] }).state = ActionState.Moving ∨
      (hitboxToggle i { g with calls := [] }).state = ActionState.Running := by
    rw [hst]; exact hs
  have hj2 : (jumpEdge i (hitboxToggle i { g with calls := [] }) &&
      (hitboxToggle i { g with calls := [] }).player.isGrounded) = false := by
    rw [hitboxToggle_player]
    simpa [jumpEdge, hitboxToggle_prevE] using hj
  have hr2 : rollEdge i (hitboxToggle i { g with calls := [] }) = false := by
    simpa [rollEdge, hitboxToggle_prevSpace] using hr
  have ha2 : attackEdge i (hitboxToggle i { g with calls := [] }) = false := by
    simpa [attackEdge, hitboxToggle_prevLMB] using ha
  have hsm := stateMachine_recompute G A i _ hs2 hj2 hr2 ha2
  clear hs2 hj2 hr2 ha2 hj hr ha
  have hne : (afterStateMachine G A i g).state ≠ ActionState.Jumping := by
    unfold afterStateMachine
    rw [hsm]
    generalize hitboxToggle i { g with calls := [] } = h at hst hc
    clear hsm
    cases hm : isMoving G i <;> cases hsh : i.shiftNow <;> rcases hs with hs | hs | hs <;>
      simp [PlayLoop, hst, hs]
  obtain ⟨e1, e2⟩ := tick_state_calls_of_ne_jumping G A cam i g hne
  rw [e1, e2]
  unfold afterStateMachine
  rw [hsm]
  generalize hitboxToggle i { g with calls := [] } = h at hst hc
  clear hsm hne e1 e2
  cases hm : isMoving G i <;> cases hsh : i.shiftNow <;> rcases hs with hs | hs | hs <;>
    simp [PlayLoop, hst, hs, hc]

/-- Holding W while already Moving issues no call and stays Moving. -/
theorem locomotion_recompute_idempotent_witness :
    (tick sampleGlm sampleClips levelCam walkForward walkingGame).state = ActionState.Moving ∧
    (tick sampleGlm sampleClips levelCam walkForward walkingGame).calls = [] :=
  (locomotion_recompute_idempotent sampleGlm sampleClips levelCam walkForward walkingGame
    (Or.inr (Or.inl rfl)) (by decide) (by decide) (by decide)).1 (by decide!)

/-- C5, the code at the failing input: W and the left mouse button are held over three
frames from the initial state while H is up. Frame 1 starts the attack on the press and
frame 2 ends it into Moving. Frame 3 starts in Moving with no key going from released to
pressed (E and Space are up and were up, the button is down and was down), and its target
is Moving, the state it starts in; yet it ends in Attacking and issues the attack
one-shot. -/
theorem held_button_breaks_recompute :
    (runTicks sampleGlm sampleClips initGame
        [(levelCam, walkAttack), (levelCam, walkAttack)]).state = ActionState.Moving ∧
    (walkAttack.eNow = false ∧ walkAttack.spaceNow = false) ∧
    (walkAttack.lmbNow = true ∧
      (runTicks sampleGlm sampleClips initGame
        [(levelCam, walkAttack), (levelCam, walkAttack)]).prevLMB = true) ∧
    (isMoving sampleGlm walkAttack = true ∧ walkAttack.shiftNow = false) ∧
    (tick sampleGlm sampleClips levelCam walkAttack
        (runTicks sampleGlm sampleClips initGame
          [(levelCam, walkAttack), (levelCam, walkAttack)])).state = ActionState.Attacking ∧
    (tick sampleGlm sampleClips levelCam walkAttack
        (runTicks sampleGlm sampleClips initGame
          [(levelCam, walkAttack), (levelCam, walkAttack)])).calls
      = [AnimCall.PlayOneShot Clip.gAttack] := by
  decide!

/-! ## One-shot states: Rolling and Attacking -/

theorem resumeLocomotion_state (G : Glm) (i : Input) (g : Game) :
    (resumeLocomotion G i g).state =
      (if isMoving G i then (if i.shiftNow then ActionState.Running else ActionState.Moving)
        else ActionState.Idle) := by
  unfold resumeLocomotion PlayLoop
  split_ifs <;> rfl

theorem resumeLocomotion_calls (G : Glm) (i : Input) (g : Game) :
    (resumeLocomotion G i g).calls = g.calls ++
      [AnimCall.PlayLoop
        (if isMoving G i then (if i.shiftNow then Clip.gRun else Clip.gWalk) else Clip.gIdle)] := by
  unfold resumeLocomotion PlayLoop
  split_ifs <;> rfl

theorem resumeLocomotion_timer (G : Glm) (i : Input) (g : Game) :
    (resumeLocomotion G i g).actionTimeLeft = g.actionTimeLeft := by
  unfold resumeLocomotion PlayLoop
  split_ifs <;> rfl

theorem resumeLocomotion_player (G : Glm) (i : Input) (g : Game) :
    (resumeLocomotion G i g).player = g.player := by
  unfold resumeLocomotion PlayLoop
  split_ifs <;> rfl

theorem resumeLocomotion_ne_jumping (G : Glm) (i : Input) (g : Game) :
    (resumeLocomotion G i g).state ≠ ActionState.Jumping := by
  rw [resumeLocomotion_state]
  split_ifs <;> simp

theorem resumeLocomotion_ne_rolling (G : Glm) (i : Input) (g : Game) :
    (resumeLocomotion G i g).state ≠ ActionState.Rolling := by
  rw [resumeLocomotion_state]
  split_ifs <;> simp

theorem stateMachine_oneshot (G : Glm) (A : Clip → Animation) (i : Input) (g : Game)
    (hs : g.state = ActionState.Rolling ∨ g.state = ActionState.Attacking) :
    stateMachine G A i g =
      if g.actionTimeLeft - i.deltaTime ≤ 0 then
        resumeLocomotion G i { g with actionTimeLeft := g.actionTimeLeft - i.deltaTime }
      else { g with actionTimeLeft := g.actionTimeLeft - i.deltaTime } := by
  unfold stateMachine
  simp [hs]

theorem tick_timer (G : Glm) (A : Clip → Animation) (cam : OrbitCam) (i : Input) (g : Game) :
    (tick G A cam i g).actionTimeLeft = (afterStateMachine G A i g).actionTimeLeft := by
  unfold tick
  rw [updatePrev_timer, movement_timer, gravity_timer]

theorem tick_oneshot (G : Glm) (A : Clip → Animation) (cam : OrbitCam) (i : Input) (g : Game)
    (hs : g.state = ActionState.Rolling ∨ g.state = ActionState.Attacking) :
    (tick G A cam i g).actionTimeLeft = g.actionTimeLeft - i.deltaTime ∧
    (g.actionTimeLeft - i.deltaTime > 0 →
      (tick G A cam i g).state = g.state ∧ (tick G A cam i g).calls = []) ∧
    (g.actionTimeLeft - i.deltaTime ≤ 0 →
      (tick G A cam i g).state =
        (if isMoving G i then (if i.shiftNow then ActionState.Running else ActionState.Moving)
          else ActionState.Idle) ∧
      (tick G A cam i g).calls =
        [AnimCall.PlayLoop
          (if isMoving G i then (if i.shiftNow then Clip.gRun else Clip.gWalk)
            else Clip.gIdle)]) := by
  have hst : (hitboxToggle i { g with calls := [] }).state = g.state := hitboxToggle_state i _
  have hc : (hitboxToggle i { g with calls := [] }).calls = [] := hitboxToggle_calls i _
  have ht : (hitboxToggle i { g with calls := [] }).actionTimeLeft = g.actionTimeLeft :=
    hitboxToggle_timer i _
  have hsm := stateMachine_oneshot G A i (hitboxToggle i { g with calls := [] })
    (by rw [hst]; exact hs)
  rw [ht] at hsm
  have hne : (afterStateMachine G A i g).state ≠ ActionState.Jumping := by
    unfold afterStateMachine
    rw [hsm]
    split_ifs
    · exact resumeLocomotion_ne_jumping G i _
    · simp only [hst]
      rcases hs with hs | hs <;> simp [hs]
  obtain ⟨e1, e2⟩ := tick_state_calls_of_ne_jumping G A cam i g hne
  rw [tick_timer, e1, e2]
  unfold afterStateMachine
  rw [hsm]
  refine ⟨?_, ?_, ?_⟩
  · split_ifs
    · rw [resumeLocomotion_timer]
    · rfl
  · intro hpos
    rw [if_neg (not_le.mpr hpos)]
    exact ⟨hst, hc⟩
  · intro hle
    rw [if_pos hle, resumeLocomotion_state, resumeLocomotion_calls]
    simp [hc]

theorem binary32_0_3_is_nearest :
    binary32_0_3 = 10066330 / 2 ^ 25 ∧ (2 : ℚ) ^ 23 ≤ 10066330 ∧ (10066330 : ℚ) < 2 ^ 24 ∧
    |0.3 - binary32_0_3| < 1 / 2 ^ 26 := by
  unfold binary32_0_3
  refine ⟨by norm_num, by norm_num, by norm_num, ?_⟩
  rw [abs_lt]
  constructor <;> norm_num

theorem binary32_0_1_is_nearest :
    binary32_0_1 = 13421773 / 2 ^ 27 ∧ (2 : ℚ) ^ 23 ≤ 13421773 ∧ (13421773 : ℚ) < 2 ^ 24 ∧
    |0.1 - binary32_0_1| < 1 / 2 ^ 28 := by
  unfold binary32_0_1
  refine ⟨by norm_num, by norm_num, by norm_num, ?_⟩
  rw [abs_lt]
  constructor <;> norm_num

/-- C7 as stated fails in its concrete scenario: a `float` cannot hold 0.3 or 0.1; with the
binary32 numbers nearest to them (timer 10066330 / 2^25, elapsed time 13421773 / 2^27 per
frame) three frames take less than the timer off, so the timer is still positive and the
state is still Rolling after frame 3. -/
theorem oneshot_scenario_counterexample :
    rollingGame.state = ActionState.Rolling ∧
    rollingGame.actionTimeLeft = 10066330 / 2 ^ 25 ∧
    |0.3 - rollingGame.actionTimeLeft| < 1 / 2 ^ 26 ∧
    idleTenth.deltaTime = 13421773 / 2 ^ 27 ∧
    |0.1 - idleTenth.deltaTime| < 1 / 2 ^ 28 ∧
    0 < (runTicks sampleGlm sampleClips rollingGame
        [(levelCam, idleTenth), (levelCam, idleTenth), (levelCam, idleTenth)]).actionTimeLeft ∧
    (runTicks sampleGlm sampleClips rollingGame
        [(levelCam, idleTenth), (levelCam, idleTenth), (levelCam, idleTenth)]).state
      = ActionState.Rolling := by
  refine ⟨rfl, binary32_0_3_is_nearest.1, binary32_0_3_is_nearest.2.2.2,
    binary32_0_1_is_nearest.1, binary32_0_1_is_nearest.2.2.2, by decide!, by decide!⟩

/-- C7 amended: a frame that starts in Rolling or Attacking with timer t and elapsed time dt
leaves the timer at t - dt; if t - dt > 0 the state is unchanged (and no animation call is
issued) whatever the keys are; if t - dt <= 0 the state becomes Running when moving with
shift, Moving when moving without shift, Idle otherwise, and the only call is the loop of
the matching clip. In particular Rolling with the binary32 timer 0.3f and the binary32
elapsed time 0.1f per frame is still Rolling after frames 1, 2 and 3 and is no longer
Rolling after frame 4. -/
theorem oneshot_commitment (G : Glm) (A : Clip → Animation) :
    (∀ (cam : OrbitCam) (i : Input) (g : Game),
      g.state = ActionState.Rolling ∨ g.state = ActionState.Attacking →
      (tick G A cam i g).actionTimeLeft = g.actionTimeLeft - i.deltaTime ∧
      (g.actionTimeLeft - i.deltaTime > 0 →
        (tick G A cam i g).state = g.state ∧ (tick G A cam i g).calls = []) ∧
      (g.actionTimeLeft - i.deltaTime ≤ 0 →
        (tick G A cam i g).state =
          (if isMoving G i then (if i.shiftNow then ActionState.Running else ActionState.Moving)
            else ActionState.Idle) ∧
        (tick G A cam i g).calls =
          [AnimCall.PlayLoop
            (if isMoving G i then (if i.shiftNow then Clip.gRun else Clip.gWalk)
              else Clip.gIdle)])) ∧
    (∀ (c1 c2 c3 c4 : OrbitCam) (i1 i2 i3 i4 : Input) (g : Game),
      g.state = ActionState.Rolling → g.actionTimeLeft = binary32_0_3 →
      i1.deltaTime = binary32_0_1 → i2.deltaTime = binary32_0_1 →
      i3.deltaTime = binary32_0_1 → i4.deltaTime = binary32_0_1 →
      (runTicks G A g [(c1, i1)]).state = ActionState.Rolling ∧
      (runTicks G A g [(c1, i1), (c2, i2)]).state = ActionState.Rolling ∧
      (runTicks G A g [(c1, i1), (c2, i2), (c3, i3)]).state = ActionState.Rolling ∧
      (runTicks G A g [(c1, i1), (c2, i2), (c3, i3), (c4, i4)]).state
        ≠ ActionState.Rolling) := by
  refine ⟨fun cam i g hs => tick_oneshot G A cam i g hs, ?_⟩
  intro c1 c2 c3 c4 i1 i2 i3 i4 g hs ht h1 h2 h3 h4
  obtain ⟨t1, p1, -⟩ := tick_oneshot G A c1 i1 g (Or.inl hs)
  have s1 : (tick G A c1 i1 g).state = ActionState.Rolling := by
    rw [(p1 (by rw [ht, h1]; unfold binary32_0_3 binary32_0_1; norm_num)).1, hs]
  obtain ⟨t2, p2, -⟩ := tick_oneshot G A c2 i2 (tick G A c1 i1 g) (Or.inl s1)
  have s2 : (tick G A c2 i2 (tick G A c1 i1 g)).state = ActionState.Rolling := by
    rw [(p2 (by rw [t1, ht, h1, h2]; unfold binary32_0_3 binary32_0_1; norm_num)).1, s1]
  obtain ⟨t3, p3, -⟩ := tick_oneshot G A c3 i3 (tick G A c2 i2 (tick G A c1 i1 g)) (Or.inl s2)
  have s3 : (tick G A c3 i3 (tick G A c2 i2 (tick G A c1 i1 g))).state
      = ActionState.Rolling := by
    rw [(p3 (by rw [t2, t1, ht, h1, h2, h3]; unfold binary32_0_3 binary32_0_1; norm_num)).1, s2]
  obtain ⟨-, -, p4⟩ := tick_oneshot G A c4 i4
    (tick G A c3 i3 (tick G A c2 i2 (tick G A c1 i1 g))) (Or.inl s3)
  have s4 := (p4 (by
    rw [t3, t2, t1, ht, h1, h2, h3, h4]; unfold binary32_0_3 binary32_0_1; norm_num)).1
  refine ⟨s1, s2, s3, ?_⟩
  show (tick G A c4 i4 (tick G A c3 i3 (tick G A c2 i2 (tick G A c1 i1 g)))).state
    ≠ ActionState.Rolling
  rw [s4]
  split_ifs <;> simp

/-- Instance of the amended C7: the sample Rolling state with timer 0.3f under four frames of
0.1f each. -/
theorem oneshot_commitment_witness :
    (runTicks sampleGlm sampleClips rollingGame [(levelCam, idleTenth)]).state
      = ActionState.Rolling ∧
    (runTicks sampleGlm sampleClips rollingGame
        [(levelCam, idleTenth), (levelCam, idleTenth)]).state = ActionState.Rolling ∧
    (runTicks sampleGlm sampleClips rollingGame
        [(levelCam, idleTenth), (levelCam, idleTenth), (levelCam, idleTenth)]).state
      = ActionState.Rolling ∧
    (runTicks sampleGlm sampleClips rollingGame
        [(levelCam, idleTenth), (levelCam, idleTenth), (levelCam, idleTenth),
          (levelCam, idleTenth)]).state ≠ ActionState.Rolling :=
  (oneshot_commitment sampleGlm sampleClips).2 levelCam levelCam levelCam levelCam
    idleTenth idleTenth idleTenth idleTenth rollingGame rfl rfl rfl rfl rfl rfl

/-! ## Gravity block and planar movement -/

theorem gravity_grounded (G : Glm) (i : Input) (g : Game) (hg : g.player.isGrounded = true) :
    gravity G i g = g := by
  unfold gravity
  simp [hg]

theorem gravity_airborne (G : Glm) (i : Input) (g : Game) (hg : g.player.isGrounded = false)
    (hy : 0 < g.player.pos.y + (g.player.yVelocity + PLAYER_GRAVITY * i.deltaTime) * i.deltaTime) :
    gravity G i g =
      { g with player :=
        { g.player with
          pos := { g.player.pos with
            y := g.player.pos.y +
              (g.player.yVelocity + PLAYER_GRAVITY * i.deltaTime) * i.deltaTime },
          yVelocity := g.player.yVelocity + PLAYER_GRAVITY * i.deltaTime } } := by
  unfold gravity
  simp [hg, not_le.mpr hy]

theorem gravity_lands (G : Glm) (i : Input) (g : Game) (hg : g.player.isGrounded = false)
    (hy : g.player.pos.y + (g.player.yVelocity + PLAYER_GRAVITY * i.deltaTime) * i.deltaTime ≤ 0) :
    gravity G i g =
      if g.state = ActionState.Jumping then
        resumeLocomotion G i
          { g with player :=
            { g.player with
              pos := { g.player.pos with y := 0 }, yVelocity := 0, isGrounded := true } }
      else
        { g with player :=
          { g.player with
            pos := { g.player.pos with y := 0 }, yVelocity := 0, isGrounded := true } } := by
  unfold gravity
  simp [hg, hy]

theorem cameraForward_y (G : Glm) (cam : OrbitCam) : (CameraForward G cam).y = 0 := by
  unfold CameraForward Glm.normalize Vec3.scale
  simp only
  split_ifs <;> simp

theorem cameraRight_y (G : Glm) (cam : OrbitCam) : (CameraRight G cam).y = 0 := by
  unfold CameraRight Glm.normalize Vec3.scale Vec3.cross
  simp

theorem wishDir_y (G : Glm) (cam : OrbitCam) (i : Input) : (wishDir G cam i).y = 0 := by
  unfold wishDir
  simp only
  split_ifs
  · rfl
  · simp [Glm.normalize, Vec3.scale, Vec3.add, cameraForward_y, cameraRight_y]
  · rfl

theorem movement_pos_y (G : Glm) (cam : OrbitCam) (i : Input) (g : Game) :
    (movement G cam i g).player.pos.y = g.player.pos.y := by
  unfold movement
  simp only
  split_ifs <;> simp [Vec3.add, Vec3.scale, Glm.normalize, wishDir_y]

/-! ## Jump start -/

theorem afterStateMachine_jump (G : Glm) (A : Clip → Animation) (i : Input) (g : Game)
    (hs : g.state = ActionState.Idle ∨ g.state = ActionState.Moving ∨
      g.state = ActionState.Running)
    (hg : g.player.isGrounded = true) (hj : jumpEdge i g = true) :
    (afterStateMachine G A i g).state = ActionState.Jumping ∧
    (afterStateMachine G A i g).player =
      { g.player with yVelocity := PLAYER_JUMP_SPEED, isGrounded := false } := by
  have hs2 : (hitboxToggle i { g with calls := [] }).state = ActionState.Idle ∨
      (hitboxToggle i { g with calls := [] }).state = ActionState.Moving ∨
      (hitboxToggle i { g with calls := [] }).state = ActionState.Running := by
    rw [hitboxToggle_state]; exact hs
  have hj2 : jumpEdge i (hitboxToggle i { g with calls := [] }) = true := by
    simpa [jumpEdge, hitboxToggle_prevE] using hj
  have hg2 : (hitboxToggle i { g with calls := [] }).player.isGrounded = true := by
    rw [hitboxToggle_player]; exact hg
  unfold afterStateMachine
  rw [stateMachine_jump G A i _ hs2 hj2 hg2]
  simp [PlayOneShot, hitboxToggle_player]

theorem jump_velocity_sign (dt : ℚ) :
    (0 < PLAYER_JUMP_SPEED + PLAYER_GRAVITY * dt ↔ dt < 524288 / 2055209) := by
  unfold PLAYER_JUMP_SPEED PLAYER_GRAVITY literal_9_8f
  constructor
  · intro h
    norm_num at h
    linarith
  · intro h
    norm_num
    linarith

theorem tick_jump_start (G : Glm) (A : Clip → Animation) (cam : OrbitCam) (i : Input) (g : Game)
    (hs : g.state = ActionState.Idle) (hg : g.player.isGrounded = true)
    (hy : g.player.pos.y = 0) (hj : jumpEdge i g = true) (hdt : 0 ≤ i.deltaTime) :
    ((afterStateMachine G A i g).state = ActionState.Jumping ∧
      (afterStateMachine G A i g).player.yVelocity = PLAYER_JUMP_SPEED ∧
      (afterStateMachine G A i g).player.isGrounded = false) ∧
    (0 < i.deltaTime ∧ i.deltaTime < 524288 / 2055209 →
      (tick G A cam i g).state = ActionState.Jumping ∧
      (tick G A cam i g).player.isGrounded = false ∧
      (tick G A cam i g).player.yVelocity = PLAYER_JUMP_SPEED + PLAYER_GRAVITY * i.deltaTime ∧
      (tick G A cam i g).player.pos.y =
        (PLAYER_JUMP_SPEED + PLAYER_GRAVITY * i.deltaTime) * i.deltaTime) ∧
    (¬ (0 < i.deltaTime ∧ i.deltaTime < 524288 / 2055209) →
      (tick G A cam i g).state =
        (if isMoving G i then (if i.shiftNow then ActionState.Running else ActionState.Moving)
          else ActionState.Idle) ∧
      (tick G A cam i g).player.isGrounded = true ∧
      (tick G A cam i g).player.yVelocity = 0 ∧
      (tick G A cam i g).player.pos.y = 0) := by
  obtain ⟨js, jp⟩ := afterStateMachine_jump G A i g (Or.inl hs) hg hj
  have jg : (afterStateMachine G A i g).player.isGrounded = false := by rw [jp]
  have jv : (afterStateMachine G A i g).player.yVelocity = PLAYER_JUMP_SPEED := by rw [jp]
  have jy : (afterStateMachine G A i g).player.pos.y = 0 := by rw [jp]; exact hy
  refine ⟨⟨js, jv, jg⟩, ?_, ?_⟩
  · rintro ⟨h0, h1⟩
    have hpos : 0 < (afterStateMachine G A i g).player.pos.y +
        ((afterStateMachine G A i g).player.yVelocity + PLAYER_GRAVITY * i.deltaTime) *
          i.deltaTime := by
      rw [jy, jv, zero_add]
      exact mul_pos ((jump_velocity_sign i.deltaTime).mpr h1) h0
    unfold tick
    rw [updatePrev_state, updatePrev_player, movement_state, movement_isGrounded,
      movement_yVelocity, movement_pos_y, gravity_airborne G i _ jg hpos]
    simp [js, jg, jv, jy]
  · intro hn
    have hle : (afterStateMachine G A i g).player.pos.y +
        ((afterStateMachine G A i g).player.yVelocity + PLAYER_GRAVITY * i.deltaTime) *
          i.deltaTime ≤ 0 := by
      rw [jy, jv, zero_add]
      rcases eq_or_lt_of_le hdt with h0 | h0
      · rw [← h0]; norm_num
      · have h1 : ¬ i.deltaTime < 524288 / 2055209 := fun hc => hn ⟨h0, hc⟩
        have h2 : ¬ 0 < PLAYER_JUMP_SPEED + PLAYER_GRAVITY * i.deltaTime :=
          fun hc => h1 ((jump_velocity_sign i.deltaTime).mp hc)
        exact mul_nonpos_of_nonpos_of_nonneg (not_lt.mp h2) hdt
    unfold tick
    rw [updatePrev_state, updatePrev_player, movement_state, movement_isGrounded,
      movement_yVelocity, movement_pos_y, gravity_lands G i _ jg hle, if_pos js,
      resumeLocomotion_state, resumeLocomotion_player]
    simp

/-- C8 as stated fails: from the initial state (grounded, Idle, y = 0) with E freshly pressed
and an eighth of a second elapsed, the frame ends in Jumping and airborne, but the gravity
block of the same frame has already run, so yVelocity is 5 - 19.6000003814697265625 / 8 =
10695475 / 2^22 (about 2.55) and not the jump impulse. Every value of this frame is a
binary32 number, so no rounding occurs in the program either. -/
theorem jump_start_velocity_counterexample :
    initGame.state = ActionState.Idle ∧ initGame.player.isGrounded = true ∧
    initGame.player.pos.y = 0 ∧ jumpEdge jumpEighth initGame = true ∧
    (0 : ℚ) ≤ jumpEighth.deltaTime ∧
    (tick sampleGlm sampleClips levelCam jumpEighth initGame).player.yVelocity
      = 10695475 / 4194304 ∧
    ¬ ((tick sampleGlm sampleClips levelCam jumpEighth initGame).state = ActionState.Jumping ∧
      (tick sampleGlm sampleClips levelCam jumpEighth initGame).player.yVelocity
        = PLAYER_JUMP_SPEED ∧
      (tick sampleGlm sampleClips levelCam jumpEighth initGame).player.isGrounded = false) := by
  decide!

/-- C8 amended: in a frame with elapsed time dt >= 0 that starts grounded in Idle at y = 0
with the jump edge firing, the state machine sets the state to Jumping, yVelocity to the
jump impulse and clears grounded. The gravity block of the same frame then runs: when
0 < dt < 524288/2055209 (the quotient of the impulse 5 by the binary32 gravity magnitude
19.6000003814697265625, about 0.2551020359) the frame ends in Jumping, airborne, with
yVelocity = impulse + gravity * dt and y = yVelocity * dt; otherwise (dt = 0 or
dt >= 524288/2055209) the player lands within the frame, which ends grounded at y = 0 with
yVelocity 0 in Running, Moving or Idle as the keys say. -/
theorem jump_start_same_frame (G : Glm) (A : Clip → Animation) (cam : OrbitCam) (i : Input)
    (g : Game) (hs : g.state = ActionState.Idle) (hg : g.player.isGrounded = true)
    (hy : g.player.pos.y = 0) (hj : jumpEdge i g = true) (hdt : 0 ≤ i.deltaTime) :
    ((afterStateMachine G A i g).state = ActionState.Jumping ∧
      (afterStateMachine G A i g).player.yVelocity = PLAYER_JUMP_SPEED ∧
      (afterStateMachine G A i g).player.isGrounded = false) ∧
    (0 < i.deltaTime ∧ i.deltaTime < 524288 / 2055209 →
      (tick G A cam i g).state = ActionState.Jumping ∧
      (tick G A cam i g).player.isGrounded = false ∧
      (tick G A cam i g).player.yVelocity = PLAYER_JUMP_SPEED + PLAYER_GRAVITY * i.deltaTime ∧
      (tick G A cam i g).player.pos.y =
        (PLAYER_JUMP_SPEED + PLAYER_GRAVITY * i.deltaTime) * i.deltaTime) ∧
    (¬ (0 < i.deltaTime ∧ i.deltaTime < 524288 / 2055209) →
      (tick G A cam i g).state =
        (if isMoving G i then (if i.shiftNow then ActionState.Running else ActionState.Moving)
          else ActionState.Idle) ∧
      (tick G A cam i g).player.isGrounded = true ∧
      (tick G A cam i g).player.yVelocity = 0 ∧
      (tick G A cam i g).player.pos.y = 0) :=
  tick_jump_start G A cam i g hs hg hy hj hdt

/-- Instance of the amended C8 at the initial state with E pressed: an eighth of a second
keeps the jump airborne; the binary32 time 2139951 / 2^23, below 25/98 but not below
524288/2055209, lands it within the frame. -/
theorem jump_start_same_frame_witness :
    ((tick sampleGlm sampleClips levelCam jumpEighth initGame).state = ActionState.Jumping ∧
      (tick sampleGlm sampleClips levelCam jumpEighth initGame).player.isGrounded = false ∧
      (tick sampleGlm sampleClips levelCam jumpEighth initGame).player.yVelocity
        = PLAYER_JUMP_SPEED + PLAYER_GRAVITY * jumpEighth.deltaTime ∧
      (tick sampleGlm sampleClips levelCam jumpEighth initGame).player.pos.y
        = (PLAYER_JUMP_SPEED + PLAYER_GRAVITY * jumpEighth.deltaTime) * jumpEighth.deltaTime) ∧
    (jumpAtThreshold.deltaTime < 25 / 98 ∧
      (tick sampleGlm sampleClips levelCam jumpAtThreshold initGame).state
        = ActionState.Idle ∧
      (tick sampleGlm sampleClips levelCam jumpAtThreshold initGame).player.isGrounded
        = true ∧
      (tick sampleGlm sampleClips levelCam jumpAtThreshold initGame).player.yVelocity = 0 ∧
      (tick sampleGlm sampleClips levelCam jumpAtThreshold initGame).player.pos.y = 0) :=
  ⟨(jump_start_same_frame sampleGlm sampleClips levelCam jumpEighth initGame rfl rfl rfl
      (by decide) (by decide!)).2.1 ⟨by decide!, by decide!⟩,
    by decide!,
    ((jump_start_same_frame sampleGlm sampleClips levelCam jumpAtThreshold initGame rfl rfl rfl
      (by decide) (by decide!)).2.2 (by decide!)).1.trans (by decide!),
    ((jump_start_same_frame sampleGlm sampleClips levelCam jumpAtThreshold initGame rfl rfl rfl
      (by decide) (by decide!)).2.2 (by decide!)).2⟩

/-! ## Planar movement while Jumping -/

theorem stateMachine_pos (G : Glm) (A : Clip → Animation) (i : Input) (g : Game) :
    (stateMachine G A i g).player.pos = g.player.pos := by
  unfold stateMachine
  simp only
  split_ifs <;> simp [resumeLocomotion_player, PlayLoop, PlayOneShot]

theorem afterStateMachine_pos (G : Glm) (A : Clip → Animation) (i : Input) (g : Game) :
    (afterStateMachine G A i g).player.pos = g.player.pos := by
  unfold afterStateMachine
  rw [stateMachine_pos, hitboxToggle_player]

theorem gravity_pos_xz (G : Glm) (i : Input) (g : Game) :
    (gravity G i g).player.pos.x = g.player.pos.x ∧
    (gravity G i g).player.pos.z = g.player.pos.z := by
  unfold gravity
  simp only
  split_ifs <;> simp [resumeLocomotion_player]

theorem movement_pos_of_jumping (G : Glm) (cam : OrbitCam) (i : Input) (g : Game)
    (h : g.state = ActionState.Jumping) :
    (movement G cam i g).player.pos = g.player.pos := by
  have hspd : moveSpd g = 0 := by
    unfold moveSpd
    simp [h]
  unfold movement
  simp only [hspd]
  split_ifs <;> simp_all [Vec3.add, Vec3.scale]

/-- C9, what the code does: in every frame that ends in Jumping the block `MOVEMENT` adds
nothing to x and z, whatever the movement keys are, because the speed it scales by 0.6 is
the 0 chosen for a state that is neither Moving nor Running. -/
theorem jumping_frame_has_no_planar_displacement (G : Glm) (A : Clip → Animation)
    (cam : OrbitCam) (i : Input) (g : Game)
    (h : (tick G A cam i g).state = ActionState.Jumping) :
    (tick G A cam i g).player.pos.x = g.player.pos.x ∧
    (tick G A cam i g).player.pos.z = g.player.pos.z := by
  unfold tick at h ⊢
  rw [updatePrev_state, movement_state] at h
  rw [updatePrev_player, movement_pos_of_jumping G cam i _ h]
  obtain ⟨hx, hz⟩ := gravity_pos_xz G i (afterStateMachine G A i g)
  rw [hx, hz, afterStateMachine_pos]
  exact ⟨rfl, rfl⟩

/-- C9 at the failing input: after a jump started from the initial state, a frame of a tenth
of a second with W held ends in Jumping with the unit intent direction (0, 0, 1), yet x and z
stay 0 where 3.4 * 0.6 * 0.1 = 0.204 along z was intended. -/
theorem jumping_frame_has_no_planar_displacement_witness :
    wishDir sampleGlm levelCam walkForward = ⟨0, 0, 1⟩ ∧
    (tick sampleGlm sampleClips levelCam jumpTenth initGame).player.pos.x = 0 ∧
    (tick sampleGlm sampleClips levelCam jumpTenth initGame).player.pos.z = 0 ∧
    (tick sampleGlm sampleClips levelCam walkForward
      (tick sampleGlm sampleClips levelCam jumpTenth initGame)).state = ActionState.Jumping ∧
    (tick sampleGlm sampleClips levelCam walkForward
      (tick sampleGlm sampleClips levelCam jumpTenth initGame)).player.pos.x = 0 ∧
    (tick sampleGlm sampleClips levelCam walkForward
      (tick sampleGlm sampleClips levelCam jumpTenth initGame)).player.pos.z = 0 :=
  ⟨by decide!, by decide!, by decide!, by decide!,
    ((jumping_frame_has_no_planar_displacement sampleGlm sampleClips levelCam walkForward
      (tick sampleGlm sampleClips levelCam jumpTenth initGame) (by decide!)).1.trans
        (by decide!)),
    ((jumping_frame_has_no_planar_displacement sampleGlm sampleClips levelCam walkForward
      (tick sampleGlm sampleClips levelCam jumpTenth initGame) (by decide!)).2.trans
        (by decide!))⟩

/-! ## Grounded flag, height and vertical velocity between frames -/

theorem stateMachine_player_cases (G : Glm) (A : Clip → Animation) (i : Input) (g : Game) :
    (stateMachine G A i g).player = g.player ∨
    (g.player.isGrounded = true ∧
      (stateMachine G A i g).player =
        { g.player with yVelocity := PLAYER_JUMP_SPEED, isGrounded := false }) := by
  unfold stateMachine
  simp only
  split_ifs with h1 h2 h3 h4 h5 <;>
    simp_all [resumeLocomotion_player, PlayLoop, PlayOneShot]

theorem afterStateMachine_player_cases (G : Glm) (A : Clip → Animation) (i : Input) (g : Game) :
    (afterStateMachine G A i g).player = g.player ∨
    (g.player.isGrounded = true ∧
      (afterStateMachine G A i g).player =
        { g.player with yVelocity := PLAYER_JUMP_SPEED, isGrounded := false }) := by
  have h := stateMachine_player_cases G A i (hitboxToggle i { g with calls := [] })
  rw [hitboxToggle_player] at h
  exact h

theorem gravity_groundInv_of_airborne (G : Glm) (i : Input) (g : Game)
    (hg : g.player.isGrounded = false) : GroundInv (gravity G i g) := by
  by_cases hy : g.player.pos.y +
      (g.player.yVelocity + PLAYER_GRAVITY * i.deltaTime) * i.deltaTime ≤ 0
  · rw [gravity_lands G i g hg hy]
    unfold GroundInv
    split_ifs <;> simp [resumeLocomotion_player]
  · rw [gravity_airborne G i g hg (not_le.mp hy)]
    unfold GroundInv
    simp [hg]
    exact not_le.mp hy

theorem movement_groundInv (G : Glm) (cam : OrbitCam) (i : Input) (g : Game)
    (h : GroundInv g) : GroundInv (movement G cam i g) := by
  unfold GroundInv
  rw [movement_isGrounded, movement_pos_y, movement_yVelocity]
  exact h

theorem tick_groundInv (G : Glm) (A : Clip → Animation) (cam : OrbitCam) (i : Input) (g : Game)
    (h : GroundInv g) : GroundInv (tick G A cam i g) := by
  have hm : GroundInv (gravity G i (afterStateMachine G A i g)) := by
    cases hg : (afterStateMachine G A i g).player.isGrounded with
    | false => exact gravity_groundInv_of_airborne G i _ hg
    | true =>
      rw [gravity_grounded G i _ hg]
      rcases afterStateMachine_player_cases G A i g with hp | ⟨-, hp⟩
      · unfold GroundInv
        rw [hp]
        exact h
      · rw [hp] at hg
        simp at hg
  exact movement_groundInv G cam i _ hm

theorem groundInv_init : GroundInv initGame := by
  unfold GroundInv initGame
  simp

theorem runTicks_groundInv (G : Glm) (A : Clip → Animation) (fs : List (OrbitCam × Input)) :
    ∀ g : Game, GroundInv g → GroundInv (runTicks G A g fs) := by
  induction fs with
  | nil => intro g h; exact h
  | cons f fs ih =>
    intro g h
    exact ih _ (tick_groundInv G A f.1 f.2 g h)

/-! ## Frames of zero elapsed time -/

theorem afterStateMachine_player_of_airborne (G : Glm) (A : Clip → Animation) (i : Input)
    (g : Game) (hg : g.player.isGrounded = false) :
    (afterStateMachine G A i g).player = g.player := by
  rcases afterStateMachine_player_cases G A i g with hp | ⟨hgr, -⟩
  · exact hp
  · rw [hg] at hgr
    simp at hgr

theorem tick_airborne_stays (G : Glm) (A : Clip → Animation) (cam : OrbitCam) (i : Input)
    (g : Game) (hg : g.player.isGrounded = false)
    (hy : 0 < g.player.pos.y + (g.player.yVelocity + PLAYER_GRAVITY * i.deltaTime) * i.deltaTime) :
    (tick G A cam i g).player.isGrounded = false ∧
    (tick G A cam i g).player.yVelocity = g.player.yVelocity + PLAYER_GRAVITY * i.deltaTime ∧
    (tick G A cam i g).player.pos.y =
      g.player.pos.y + (g.player.yVelocity + PLAYER_GRAVITY * i.deltaTime) * i.deltaTime := by
  have hp := afterStateMachine_player_of_airborne G A i g hg
  unfold tick
  rw [updatePrev_player, movement_isGrounded, movement_yVelocity, movement_pos_y,
    gravity_airborne G i _ (by rw [hp]; exact hg) (by rw [hp]; exact hy), hp]
  exact ⟨hg, rfl, rfl⟩

theorem tick_airborne_lands (G : Glm) (A : Clip → Animation) (cam : OrbitCam) (i : Input)
    (g : Game) (hg : g.player.isGrounded = false)
    (hy : g.player.pos.y + (g.player.yVelocity + PLAYER_GRAVITY * i.deltaTime) * i.deltaTime ≤ 0) :
    (tick G A cam i g).player.pos.y = 0 ∧
    (tick G A cam i g).player.yVelocity = 0 ∧
    (tick G A cam i g).player.isGrounded = true := by
  have hp := afterStateMachine_player_of_airborne G A i g hg
  unfold tick
  rw [updatePrev_player, movement_isGrounded, movement_yVelocity, movement_pos_y,
    gravity_lands G i _ (by rw [hp]; exact hg) (by rw [hp]; exact hy)]
  split_ifs <;> simp [resumeLocomotion_player]

theorem free_fall_closed_form (G : Glm) (A : Clip → Animation) (dt : ℚ) (g0 : Game)
    (hg : g0.player.isGrounded = false) (hy : g0.player.pos.y = 2)
    (hv : g0.player.yVelocity = 0) (fs : ℕ → OrbitCam × Input)
    (hfs : ∀ k, (fs k).2.deltaTime = dt) (n : ℕ)
    (hpos : ∀ k < n, 0 < 2 + PLAYER_GRAVITY * dt ^ 2 * (((k : ℚ) + 1) * ((k : ℚ) + 2) / 2)) :
    ∀ k ≤ n,
      (runFrames G A fs g0 k).player.isGrounded = false ∧
      (runFrames G A fs g0 k).player.yVelocity = PLAYER_GRAVITY * dt * (k : ℚ) ∧
      (runFrames G A fs g0 k).player.pos.y
        = 2 + PLAYER_GRAVITY * dt ^ 2 * ((k : ℚ) * ((k : ℚ) + 1) / 2) := by
  intro k
  induction k with
  | zero =>
    intro _
    refine ⟨hg, ?_, ?_⟩
    · simp [runFrames, hv]
    · simp [runFrames, hy]
  | succ k ih =>
    intro hk
    obtain ⟨kg, kv, ky⟩ := ih (Nat.le_of_succ_le hk)
    have hh : 0 < (runFrames G A fs g0 k).player.pos.y +
        ((runFrames G A fs g0 k).player.yVelocity + PLAYER_GRAVITY * (fs k).2.deltaTime) *
          (fs k).2.deltaTime := by
      rw [hfs k, kv, ky]
      have := hpos k hk
      linarith
    obtain ⟨sg, sv, sy⟩ := tick_airborne_stays G A (fs k).1 (fs k).2 _ kg hh
    refine ⟨sg, ?_, ?_⟩
    · show (tick G A (fs k).1 (fs k).2 (runFrames G A fs g0 k)).player.yVelocity = _
      rw [sv, hfs k, kv]
      push_cast
      ring
    · show (tick G A (fs k).1 (fs k).2 (runFrames G A fs g0 k)).player.pos.y = _
      rw [sy, hfs k, kv, ky]
      push_cast
      ring

theorem gravity_is_downward : PLAYER_GRAVITY < 0 := by
  unfold PLAYER_GRAVITY literal_9_8f
  norm_num

theorem literal_9_8f_is_binary32 :
    literal_9_8f = 10276045 / 2 ^ 20 ∧ (2 : ℚ) ^ 23 ≤ 10276045 ∧ (10276045 : ℚ) < 2 ^ 24 ∧
    |9.8 - literal_9_8f| < 1 / 2 ^ 21 := by
  unfold literal_9_8f
  refine ⟨by norm_num, by norm_num, by norm_num, ?_⟩
  rw [abs_lt]
  constructor <;> norm_num

theorem free_fall_reaches_ground (dt : ℚ) (hdt : 0 < dt) :
    ∃ m : ℕ, 2 + PLAYER_GRAVITY * dt ^ 2 * (((m : ℚ) + 1) * ((m : ℚ) + 2) / 2) ≤ 0 := by
  have hg : 0 < -PLAYER_GRAVITY := neg_pos.mpr gravity_is_downward
  have hc : 0 < -PLAYER_GRAVITY * dt ^ 2 := mul_pos hg (pow_pos hdt 2)
  obtain ⟨m, hm⟩ := exists_nat_ge (2 / (-PLAYER_GRAVITY * dt ^ 2))
  refine ⟨m, ?_⟩
  have h1 : 2 ≤ (m : ℚ) * (-PLAYER_GRAVITY * dt ^ 2) := by
    rwa [div_le_iff₀ hc] at hm
  have hm0 : (0 : ℚ) ≤ (m : ℚ) := Nat.cast_nonneg m
  have h2 : (m : ℚ) ≤ ((m : ℚ) + 1) * ((m : ℚ) + 2) / 2 := by nlinarith
  have h3 : (m : ℚ) * (-PLAYER_GRAVITY * dt ^ 2)
      ≤ ((m : ℚ) + 1) * ((m : ℚ) + 2) / 2 * (-PLAYER_GRAVITY * dt ^ 2) :=
    mul_le_mul_of_nonneg_right h2 hc.le
  linarith

/-- C6: from any state that is airborne at y = 2 with yVelocity 0, under frames of a fixed
elapsed time dt > 0 (any keys, any cameras), there is a first frame, number n + 1, whose
integrated height y + (v + g * dt) * dt is at most 0; that frame ends with y = 0,
yVelocity = 0 and grounded = true, and every earlier frame has integrated height above 0
and ends airborne with yVelocity = v + g * dt and y = y + yVelocity * dt. -/
theorem ground_clamp_after_fall (G : Glm) (A : Clip → Animation) (dt : ℚ) (hdt : 0 < dt)
    (g0 : Game) (hg : g0.player.isGrounded = false) (hy : g0.player.pos.y = 2)
    (hv : g0.player.yVelocity = 0) (fs : ℕ → OrbitCam × Input)
    (hfs : ∀ k, (fs k).2.deltaTime = dt) :
    ∃ n : ℕ,
      (∀ k < n,
        0 < (runFrames G A fs g0 k).player.pos.y +
          ((runFrames G A fs g0 k).player.yVelocity + PLAYER_GRAVITY * dt) * dt ∧
        (runFrames G A fs g0 (k + 1)).player.isGrounded = false ∧
        (runFrames G A fs g0 (k + 1)).player.yVelocity
          = (runFrames G A fs g0 k).player.yVelocity + PLAYER_GRAVITY * dt ∧
        (runFrames G A fs g0 (k + 1)).player.pos.y
          = (runFrames G A fs g0 k).player.pos.y
            + (runFrames G A fs g0 (k + 1)).player.yVelocity * dt) ∧
      (runFrames G A fs g0 n).player.pos.y +
          ((runFrames G A fs g0 n).player.yVelocity + PLAYER_GRAVITY * dt) * dt ≤ 0 ∧
      (runFrames G A fs g0 (n + 1)).player.pos.y = 0 ∧
      (runFrames G A fs g0 (n + 1)).player.yVelocity = 0 ∧
      (runFrames G A fs g0 (n + 1)).player.isGrounded = true := by
  classical
  have hex := free_fall_reaches_ground dt hdt
  obtain ⟨n, hn, hmin⟩ : ∃ n : ℕ,
      2 + PLAYER_GRAVITY * dt ^ 2 * (((n : ℚ) + 1) * ((n : ℚ) + 2) / 2) ≤ 0 ∧
      ∀ k < n, 0 < 2 + PLAYER_GRAVITY * dt ^ 2 * (((k : ℚ) + 1) * ((k : ℚ) + 2) / 2) :=
    ⟨Nat.find hex, Nat.find_spec hex, fun k hk => not_le.mp (Nat.find_min hex hk)⟩
  have hcl := free_fall_closed_form G A dt g0 hg hy hv fs hfs n hmin
  refine ⟨n, ?_, ?_⟩
  · intro k hk
    obtain ⟨kg, kv, ky⟩ := hcl k hk.le
    have hh : 0 < (runFrames G A fs g0 k).player.pos.y +
        ((runFrames G A fs g0 k).player.yVelocity + PLAYER_GRAVITY * dt) * dt := by
      rw [kv, ky]
      have := hmin k hk
      linarith
    have hh2 : 0 < (runFrames G A fs g0 k).player.pos.y +
        ((runFrames G A fs g0 k).player.yVelocity + PLAYER_GRAVITY * (fs k).2.deltaTime) *
          (fs k).2.deltaTime := by
      rw [hfs k]; exact hh
    obtain ⟨sg, sv, sy⟩ := tick_airborne_stays G A (fs k).1 (fs k).2 _ kg hh2
    rw [hfs k] at sv sy
    refine ⟨hh, sg, sv, ?_⟩
    show (tick G A (fs k).1 (fs k).2 (runFrames G A fs g0 k)).player.pos.y =
      (runFrames G A fs g0 k).player.pos.y +
        (tick G A (fs k).1 (fs k).2 (runFrames G A fs g0 k)).player.yVelocity * dt
    rw [sy, sv]
  · obtain ⟨ng, nv, ny⟩ := hcl n le_rfl
    have hh : (runFrames G A fs g0 n).player.pos.y +
        ((runFrames G A fs g0 n).player.yVelocity + PLAYER_GRAVITY * dt) * dt ≤ 0 := by
      rw [nv, ny]
      linarith
    have hh2 : (runFrames G A fs g0 n).player.pos.y +
        ((runFrames G A fs g0 n).player.yVelocity + PLAYER_GRAVITY * (fs n).2.deltaTime) *
          (fs n).2.deltaTime ≤ 0 := by
      rw [hfs n]; exact hh
    exact ⟨hh, tick_airborne_lands G A (fs n).1 (fs n).2 _ ng hh2⟩

/-- Instance of C6: the sample airborne state at height 2 under frames of a quarter second. -/
theorem ground_clamp_after_fall_witness :
    ∃ n : ℕ,
      (∀ k < n,
        0 < (runFrames sampleGlm sampleClips quarterFrames dropGame k).player.pos.y +
          ((runFrames sampleGlm sampleClips quarterFrames dropGame k).player.yVelocity
            + PLAYER_GRAVITY * (1 / 4)) * (1 / 4) ∧
        (runFrames sampleGlm sampleClips quarterFrames dropGame (k + 1)).player.isGrounded
          = false ∧
        (runFrames sampleGlm sampleClips quarterFrames dropGame (k + 1)).player.yVelocity
          = (runFrames sampleGlm sampleClips quarterFrames dropGame k).player.yVelocity
            + PLAYER_GRAVITY * (1 / 4) ∧
        (runFrames sampleGlm sampleClips quarterFrames dropGame (k + 1)).player.pos.y
          = (runFrames sampleGlm sampleClips quarterFrames dropGame k).player.pos.y
            + (runFrames sampleGlm sampleClips quarterFrames dropGame (k + 1)).player.yVelocity
              * (1 / 4)) ∧
      (runFrames sampleGlm sampleClips quarterFrames dropGame n).player.pos.y +
          ((runFrames sampleGlm sampleClips quarterFrames dropGame n).player.yVelocity
            + PLAYER_GRAVITY * (1 / 4)) * (1 / 4) ≤ 0 ∧
      (runFrames sampleGlm sampleClips quarterFrames dropGame (n + 1)).player.pos.y = 0 ∧
      (runFrames sampleGlm sampleClips quarterFrames dropGame (n + 1)).player.yVelocity = 0 ∧
      (runFrames sampleGlm sampleClips quarterFrames dropGame (n + 1)).player.isGrounded
        = true :=
  ground_clamp_after_fall sampleGlm sampleClips (1 / 4) (by norm_num) dropGame rfl rfl rfl
    quarterFrames (fun _ => rfl)

/-! ## Orbit camera: first-move guard -/

theorem camSession_init : CamSession initCam := by
  refine ⟨camInRange_init, ?_, ?_⟩
  · unfold initCam
    norm_num
  · intro _
    unfold initCam
    norm_num

theorem mouse_callback_sens (x y : ℚ) (w : CamWorld) :
    (mouse_callback x y w).cam.sens = w.cam.sens := by
  unfold mouse_callback
  simp only
  split_ifs <;> rfl

theorem mouse_callback_firstMouse (x y : ℚ) (w : CamWorld) :
    (mouse_callback x y w).firstMouse = false := by
  unfold mouse_callback
  simp only
  split_ifs <;> simp_all

theorem mouse_callback_last (x y : ℚ) (w : CamWorld) :
    (mouse_callback x y w).lastX = x ∧ (mouse_callback x y w).lastY = y := by
  unfold mouse_callback
  simp

theorem camSession_mouse (x y : ℚ) (w : CamWorld) (h : CamSession w) :
    CamSession (mouse_callback x y w) := by
  refine ⟨camInRange_mouse x y w h.1, ?_, ?_⟩
  · rw [mouse_callback_sens]; exact h.2.1
  · intro hf
    rw [mouse_callback_firstMouse] at hf
    simp at hf

theorem camSession_scroll (xo yo : ℚ) (w : CamWorld) (h : CamSession w) :
    CamSession (scroll_callback xo yo w) := by
  refine ⟨camInRange_scroll xo yo w h.1, ?_, ?_⟩
  · unfold scroll_callback
    simp only
    split_ifs <;> exact h.2.1
  · intro hf
    have hf2 : w.firstMouse = true := by
      unfold scroll_callback at hf
      exact hf
    obtain ⟨hy, hp⟩ := h.2.2 hf2
    unfold scroll_callback
    simp only
    split_ifs <;> exact ⟨hy, hp⟩

theorem camSession_runEvents (es : List CamEvent) :
    ∀ w : CamWorld, CamSession w → CamSession (runEvents w es) := by
  induction es with
  | nil => intro w h; exact h
  | cons e es ih =>
    intro w h
    have hstep : CamSession (CamEvent.apply w e) := by
      cases e with
      | mouseMove x y => exact camSession_mouse x y w h
      | scroll xo yo => exact camSession_scroll xo yo w h
    exact ih _ hstep

theorem mouse_callback_first (x y : ℚ) (w : CamWorld) (hf : w.firstMouse = true)
    (hlo : w.cam.minPitch ≤ w.cam.pitchDeg) (hhi : w.cam.pitchDeg ≤ w.cam.maxPitch) :
    mouse_callback x y w = { w with lastX := x, lastY := y, firstMouse := false } := by
  unfold mouse_callback
  simp [hf, not_lt.mpr hlo, not_lt.mpr hhi]

theorem mouse_callback_next (x y : ℚ) (w : CamWorld) (hf : w.firstMouse = false)
    (hmm : w.cam.minPitch ≤ w.cam.maxPitch) :
    (mouse_callback x y w).cam.yawDeg = w.cam.yawDeg - w.cam.sens * (x - w.lastX) ∧
    (mouse_callback x y w).cam.pitchDeg =
      min w.cam.maxPitch (max w.cam.minPitch (w.cam.pitchDeg + w.cam.sens * (w.lastY - y))) := by
  have hyaw : (mouse_callback x y w).cam.yawDeg
      = w.cam.yawDeg + (x - w.lastX) * w.cam.sens * -1 := by
    unfold mouse_callback
    simp only [hf, Bool.false_eq_true, if_false]
    split_ifs <;> rfl
  have hpitch : (mouse_callback x y w).cam.pitchDeg =
      if w.cam.pitchDeg + (w.lastY - y) * w.cam.sens < w.cam.minPitch then
        (if w.cam.minPitch > w.cam.maxPitch then w.cam.maxPitch else w.cam.minPitch)
      else
        (if w.cam.pitchDeg + (w.lastY - y) * w.cam.sens > w.cam.maxPitch then w.cam.maxPitch
          else w.cam.pitchDeg + (w.lastY - y) * w.cam.sens) := by
    unfold mouse_callback
    simp only [hf, Bool.false_eq_true, if_false]
    split_ifs <;> rfl
  constructor
  · rw [hyaw]; ring
  · rw [hpitch, mul_comm w.cam.sens (w.lastY - y)]
    split_ifs with h1 h2 h2
    · exact absurd (lt_of_lt_of_le h2 hmm) (lt_irrefl _)
    · rw [max_eq_left h1.le, min_eq_right hmm]
    · rw [max_eq_right (not_lt.mp h1), min_eq_left h2.le]
    · rw [max_eq_right (not_lt.mp h1), min_eq_right (not_lt.mp h2)]

/-- C11: let the camera world be any state of a session in which no mouse-move event has
arrived yet (`firstMouse` set). For every cursor position (x, y) the first mouse-move event
leaves the whole camera, yaw and pitch included, unchanged and records (x, y) as the
baseline, clearing `firstMouse`. The next mouse-move event, at the raw cursor offset
(dx, dy) from that baseline, sets yaw to yaw - sens * dx and pitch to pitch - sens * dy
clamped into [minPitch, maxPitch]; the sensitivity is 0.1, and for dx = 10 and dy = 10
or -10 yaw and pitch each change by exactly 1 degree. -/
theorem first_move_guard (es : List CamEvent)
    (hfirst : (runEvents initCam es).firstMouse = true) (x y dx dy : ℚ) :
    (mouse_callback x y (runEvents initCam es)).cam = (runEvents initCam es).cam ∧
    (mouse_callback x y (runEvents initCam es)).lastX = x ∧
    (mouse_callback x y (runEvents initCam es)).lastY = y ∧
    (mouse_callback x y (runEvents initCam es)).firstMouse = false ∧
    (mouse_callback (x + dx) (y + dy) (mouse_callback x y (runEvents initCam es))).cam.yawDeg
      = (runEvents initCam es).cam.yawDeg - (runEvents initCam es).cam.sens * dx ∧
    (mouse_callback (x + dx) (y + dy) (mouse_callback x y (runEvents initCam es))).cam.pitchDeg
      = min (runEvents initCam es).cam.maxPitch
          (max (runEvents initCam es).cam.minPitch
            ((runEvents initCam es).cam.pitchDeg - (runEvents initCam es).cam.sens * dy)) ∧
    (runEvents initCam es).cam.sens = 0.1 ∧
    (dx = 10 → |dy| = 10 →
      |(mouse_callback (x + dx) (y + dy)
          (mouse_callback x y (runEvents initCam es))).cam.yawDeg
        - (runEvents initCam es).cam.yawDeg| = 1 ∧
      |(mouse_callback (x + dx) (y + dy)
          (mouse_callback x y (runEvents initCam es))).cam.pitchDeg
        - (runEvents initCam es).cam.pitchDeg| = 1) := by
  obtain ⟨⟨hmin, hmax, -, -, hlo, hhi, -, -⟩, hsens, hstart⟩ :=
    camSession_runEvents es initCam camSession_init
  obtain ⟨hyaw0, hpitch0⟩ := hstart hfirst
  have h1 := mouse_callback_first x y (runEvents initCam es) hfirst hlo hhi
  have hmm : (runEvents initCam es).cam.minPitch ≤ (runEvents initCam es).cam.maxPitch :=
    le_trans hlo hhi
  obtain ⟨hy2, hp2⟩ := mouse_callback_next (x + dx) (y + dy)
    (mouse_callback x y (runEvents initCam es)) (mouse_callback_firstMouse _ _ _)
    (by rw [h1]; exact hmm)
  rw [h1] at hy2 hp2
  simp only at hy2 hp2
  have e1 : x + dx - x = dx := by ring
  have e2 : y - (y + dy) = -dy := by ring
  rw [e1] at hy2
  rw [e2, mul_neg, ← sub_eq_add_neg] at hp2
  rw [h1, hy2, hp2]
  refine ⟨rfl, rfl, rfl, rfl, rfl, rfl, hsens, ?_⟩
  intro hdx hdy
  rw [hsens, hmin, hmax, hpitch0, hdx]
  rcases abs_eq (by norm_num : (0 : ℚ) ≤ 10) |>.mp hdy with h | h
  · rw [h]
    norm_num [abs_of_neg, abs_of_pos]
  · rw [h]
    norm_num [abs_of_neg, abs_of_pos]

/-- Instance of C11 at session start: first event at (400, 300), the next at offset
(10, 10). -/
theorem first_move_guard_witness :
    (mouse_callback 400 300 (runEvents initCam [])).cam = (runEvents initCam []).cam ∧
    (mouse_callback (400 + 10) (300 + 10)
        (mouse_callback 400 300 (runEvents initCam []))).cam.yawDeg
      = (runEvents initCam []).cam.yawDeg - (runEvents initCam []).cam.sens * 10 ∧
    |(mouse_callback (400 + 10) (300 + 10)
        (mouse_callback 400 300 (runEvents initCam []))).cam.pitchDeg
      - (runEvents initCam []).cam.pitchDeg| = 1 :=
  ⟨(first_move_guard [] rfl 400 300 10 10).1,
   (first_move_guard [] rfl 400 300 10 10).2.2.2.2.1,
   ((first_move_guard [] rfl 400 300 10 10).2.2.2.2.2.2.2 rfl (by norm_num)).2⟩

/-! ## Jumping exactly when airborne -/

theorem stateMachine_jumping (G : Glm) (A : Clip → Animation) (i : Input) (g : Game)
    (hs : g.state = ActionState.Jumping) :
    stateMachine G A i g = if g.player.isGrounded then resumeLocomotion G i g else g := by
  unfold stateMachine
  simp [hs]

theorem jumpInv_of_grounded (g : Game) (hs : g.state ≠ ActionState.Jumping)
    (hg : g.player.isGrounded = true) : JumpInv g := by
  unfold JumpInv
  constructor
  · intro h; exact absurd h hs
  · intro h; rw [hg] at h; simp at h

theorem jumpInv_of_airborne (g : Game) (hs : g.state = ActionState.Jumping)
    (hg : g.player.isGrounded = false) : JumpInv g := by
  unfold JumpInv
  exact ⟨fun _ => hg, fun _ => hs⟩

theorem grounded_of_jumpInv (g : Game) (h : JumpInv g) (hs : g.state ≠ ActionState.Jumping) :
    g.player.isGrounded = true := by
  unfold JumpInv at h
  cases hg : g.player.isGrounded with
  | true => rfl
  | false => exact absurd (h.mpr hg) hs

theorem playOneShot_state (A : Clip → Animation) (c : Clip) (g : Game) :
    (PlayOneShot A c g).state = g.state ∧ (PlayOneShot A c g).player = g.player := by
  unfold PlayOneShot
  exact ⟨rfl, rfl⟩

theorem stateMachine_jumpInv (G : Glm) (A : Clip → Animation) (i : Input) (g : Game)
    (h : JumpInv g) : JumpInv (stateMachine G A i g) := by
  by_cases hJ : g.state = ActionState.Jumping
  · have hg : g.player.isGrounded = false := h.mp hJ
    rw [stateMachine_jumping G A i g hJ, hg]
    exact h
  · have hg := grounded_of_jumpInv g h hJ
    by_cases hRA : g.state = ActionState.Rolling ∨ g.state = ActionState.Attacking
    · rw [stateMachine_oneshot G A i g hRA]
      split_ifs
      · apply jumpInv_of_grounded _ (resumeLocomotion_ne_jumping G i _)
        rw [resumeLocomotion_player]
        exact hg
      · exact jumpInv_of_grounded _ hJ hg
    · have hs3 : g.state = ActionState.Idle ∨ g.state = ActionState.Moving ∨
          g.state = ActionState.Running := by
        cases hs : g.state <;> simp_all
      cases hj : jumpEdge i g with
      | true =>
        rw [stateMachine_jump G A i g hs3 hj hg]
        exact jumpInv_of_airborne _ rfl rfl
      | false =>
        have hj2 : (jumpEdge i g && g.player.isGrounded) = false := by simp [hj]
        cases hr : rollEdge i g with
        | true =>
          rw [stateMachine_roll G A i g hs3 hj2 hr]
          apply jumpInv_of_grounded
          · rw [(playOneShot_state A _ _).1]; simp
          · rw [(playOneShot_state A _ _).2]; exact hg
        | false =>
          cases ha : attackEdge i g with
          | true =>
            rw [stateMachine_attack G A i g hs3 hj2 hr ha]
            apply jumpInv_of_grounded
            · rw [(playOneShot_state A _ _).1]; simp
            · rw [(playOneShot_state A _ _).2]; exact hg
          | false =>
            rw [stateMachine_recompute G A i g hs3 hj2 hr ha]
            split_ifs <;>
              first
                | exact h
                | exact jumpInv_of_grounded _ (by simp [PlayLoop]) hg

theorem afterStateMachine_jumpInv (G : Glm) (A : Clip → Animation) (i : Input) (g : Game)
    (h : JumpInv g) : JumpInv (afterStateMachine G A i g) := by
  unfold afterStateMachine
  apply stateMachine_jumpInv
  unfold JumpInv
  rw [hitboxToggle_state, hitboxToggle_player]
  exact h

theorem gravity_jumpInv (G : Glm) (i : Input) (g : Game) (h : JumpInv g) :
    JumpInv (gravity G i g) := by
  cases hg : g.player.isGrounded with
  | true => rw [gravity_grounded G i g hg]; exact h
  | false =>
    have hJ : g.state = ActionState.Jumping := h.mpr hg
    by_cases hy : g.player.pos.y +
        (g.player.yVelocity + PLAYER_GRAVITY * i.deltaTime) * i.deltaTime ≤ 0
    · rw [gravity_lands G i g hg hy, if_pos hJ]
      apply jumpInv_of_grounded _ (resumeLocomotion_ne_jumping G i _)
      rw [resumeLocomotion_player]
    · rw [gravity_airborne G i g hg (not_le.mp hy)]
      exact jumpInv_of_airborne _ hJ hg

theorem tick_jumpInv (G : Glm) (A : Clip → Animation) (cam : OrbitCam) (i : Input) (g : Game)
    (h : JumpInv g) : JumpInv (tick G A cam i g) := by
  have hm := gravity_jumpInv G i _ (afterStateMachine_jumpInv G A i g h)
  unfold JumpInv at hm ⊢
  unfold tick
  rw [updatePrev_state, updatePrev_player, movement_state, movement_isGrounded]
  exact hm

theorem jumpInv_init : JumpInv initGame := by
  unfold JumpInv initGame
  simp

theorem runTicks_jumpInv (G : Glm) (A : Clip → Animation) (fs : List (OrbitCam × Input)) :
    ∀ g : Game, JumpInv g → JumpInv (runTicks G A g fs) := by
  induction fs with
  | nil => intro g h; exact h
  | cons f fs ih =>
    intro g h
    exact ih _ (tick_jumpInv G A f.1 f.2 g h)

theorem afterStateMachine_of_landingBranch (G : Glm) (A : Clip → Animation) (i : Input)
    (g : Game) (h : landingBranch i g = true) :
    afterStateMachine G A i g =
      resumeLocomotion G i (hitboxToggle i { g with calls := [] }) := by
  unfold landingBranch at h
  simp only [Bool.and_eq_true, decide_eq_true_eq] at h
  unfold afterStateMachine
  rw [stateMachine_jumping G A i _ h.1, h.2]
  rfl

/-- C12: in the state at the end of every frame of every run from the initial state (any
cameras, keys and elapsed times; the empty run gives the initial state itself), (a) the
action state is Jumping if and only if the player is not grounded, (b) grounded implies
y = 0 and yVelocity = 0, (c) not grounded implies y > 0; and, whatever the next input is,
the landing branch in the Jumping case of the state machine is not taken in the next
frame. -/
theorem reachable_jumping_iff_airborne (G : Glm) (A : Clip → Animation)
    (fs : List (OrbitCam × Input)) :
    ((runTicks G A initGame fs).state = ActionState.Jumping ↔
      (runTicks G A initGame fs).player.isGrounded = false) ∧
    ((runTicks G A initGame fs).player.isGrounded = true →
      (runTicks G A initGame fs).player.pos.y = 0 ∧
      (runTicks G A initGame fs).player.yVelocity = 0) ∧
    ((runTicks G A initGame fs).player.isGrounded = false →
      0 < (runTicks G A initGame fs).player.pos.y) ∧
    (∀ i : Input, landingBranch i (runTicks G A initGame fs) = false) := by
  have hj := runTicks_jumpInv G A fs initGame jumpInv_init
  have hgi := runTicks_groundInv G A fs initGame groundInv_init
  refine ⟨hj, hgi.1, hgi.2, ?_⟩
  intro i
  unfold landingBranch
  rw [hitboxToggle_state, hitboxToggle_player]
  cases hg : (runTicks G A initGame fs).player.isGrounded with
  | false => simp
  | true =>
    have hne : (runTicks G A initGame fs).state ≠ ActionState.Jumping := by
      intro hs
      rw [hj.mp hs] at hg
      simp at hg
    simp [hne]

end SkeletalAnimation
